import Mathlib

/-!
Verification of the MCP Jira connector (`src/Jira_connector.py`).

The module is a thin adapter: it resolves per-user credentials from an
opaque caller context, performs an MCP `initialize` handshake over HTTP
POST, issues a `tools/call` (or `tools/list`) request, and normalizes the
JSON-RPC response into a single string.

Shallow embedding used here:
* JSON documents are modelled by the inductive `JVal` (integers only; the
  connector never manipulates fractional numbers itself).
* Python string builtins used by the source (`str.strip`, `str.split`,
  `str.startswith`, `"sep".join`, `str(int)`) are re-implemented on
  character lists so that every definition is kernel-computable.
* Each network call (`requests.post`) is one interaction with an
  environment `Env : Request → PostResult`; the environment chooses the
  HTTP status, the `Mcp-Session-Id` response header, the parsed body (or
  a JSON-decode failure) and the raw body text, or makes the call raise
  (timeout / connection error), exactly the observable behaviour of the
  `requests` API that the source consumes.
* Python control flow with exceptions is modelled by the monad
  `M α = List Request → Except PyExc α × List Request`: the final state
  component is the trace of attempted network calls, and an
  `Except.error` outcome is an exception propagating to the host.
-/

/-- JSON value. The connector only ever builds or inspects strings,
integers, booleans, null, arrays and objects; an object is a key/value
list in insertion order (Python dicts preserve insertion order). -/
inductive JVal where
  | null
  | bool (b : Bool)
  | num (n : Int)
  | str (s : String)
  | arr (xs : List JVal)
  | obj (fields : List (String × JVal))

mutual
/-- Structural (Python `==`) equality on JSON values. -/
def jvalBeq : JVal → JVal → Bool
  | JVal.null, JVal.null => true
  | JVal.bool a, JVal.bool b => a == b
  | JVal.num a, JVal.num b => a == b
  | JVal.str a, JVal.str b => a == b
  | JVal.arr a, JVal.arr b => jvalBeqList a b
  | JVal.obj a, JVal.obj b => jvalBeqObj a b
  | _, _ => false

def jvalBeqList : List JVal → List JVal → Bool
  | [], [] => true
  | a :: as, b :: bs => jvalBeq a b && jvalBeqList as bs
  | _, _ => false

def jvalBeqObj : List (String × JVal) → List (String × JVal) → Bool
  | [], [] => true
  | (k1, v1) :: as, (k2, v2) :: bs => k1 == k2 && jvalBeq v1 v2 && jvalBeqObj as bs
  | _, _ => false
end

instance : BEq JVal := ⟨jvalBeq⟩

/-- Dictionary lookup (`d.get(key)` / `key in d`): first binding wins. -/
def lookupField : List (String × JVal) → String → Option JVal
  | [], _ => none
  | (k, v) :: rest, key => if k = key then some v else lookupField rest key

/-- The character `\x7b` (left curly brace). -/
def lbrace : Char := Char.ofNat 123

/-- The character `\x7d` (right curly brace). -/
def rbrace : Char := Char.ofNat 125

/-! ## Python string builtins, re-implemented on character lists -/

/-- Python `str.startswith` test: does the second list lead the first? -/
def leadingMatch : List Char → List Char → Bool
  | [], _ => true
  | _ :: _, [] => false
  | a :: as, b :: bs => a == b && leadingMatch as bs

/-- Python `s.startswith(pre)`. -/
def pyStartsWith (s pre : String) : Bool := leadingMatch pre.data s.data

/-- Split a character list at every occurrence of a character
(Python `s.split(",")` for a one-character separator). -/
def splitOnChar (c : Char) : List Char → List (List Char)
  | [] => [[]]
  | x :: xs =>
    let r := splitOnChar c xs
    if x == c then [] :: r
    else match r with
      | [] => [[x]]
      | h :: t => (x :: h) :: t

/-- Python `s.split(",")`. -/
def pySplitComma (s : String) : List String := (splitOnChar ',' s.data).map String.mk

/-- ASCII whitespace recognized by Python `str.strip` (the common cases). -/
def isPyWs (c : Char) : Bool := c == ' ' || c == '\t' || c == '\n' || c == '\r'

/-- Python `s.strip()`. -/
def pyStrip (s : String) : String :=
  String.mk (((s.data.dropWhile isPyWs).reverse.dropWhile isPyWs).reverse)

/-- Python `"sep".join(parts)`. -/
def joinWith (sep : String) : List String → String
  | [] => ""
  | [x] => x
  | x :: y :: xs => x ++ sep ++ joinWith sep (y :: xs)

/-- Value of a decimal digit character, if it is one. -/
def digitVal (c : Char) : Option Nat :=
  if c == '0' then some 0 else if c == '1' then some 1 else if c == '2' then some 2
  else if c == '3' then some 3 else if c == '4' then some 4 else if c == '5' then some 5
  else if c == '6' then some 6 else if c == '7' then some 7 else if c == '8' then some 8
  else if c == '9' then some 9 else none

/-- Read a non-empty run of decimal digits as a number. -/
def digitsToNat : List Char → Option Nat → Option Nat
  | [], acc => acc
  | c :: cs, acc =>
    match digitVal c, acc with
    | some d, some n => digitsToNat cs (some (n * 10 + d))
    | some d, none => digitsToNat cs (some d)
    | none, _ => none

/-- Integer coercion of a string: optional surrounding whitespace,
optional sign, decimal digits (Python `int(s)` / pydantic lax `str → int`
coercion, restricted to plain decimal forms). -/
def pyToInt (s : String) : Option Int :=
  match (pyStrip s).data with
  | '-' :: ds => (digitsToNat ds none).map (fun n => -(n : Int))
  | '+' :: ds => (digitsToNat ds none).map (fun n => (n : Int))
  | ds => (digitsToNat ds none).map (fun n => (n : Int))

/-- Decimal digits of a natural number (fuel-driven so that the kernel
can evaluate it; the fuel `n + 1` always suffices). -/
def natToCharsAux : Nat → Nat → List Char
  | 0, _ => []
  | fuel + 1, n =>
    if n < 10 then [Char.ofNat (48 + n)]
    else natToCharsAux fuel (n / 10) ++ [Char.ofNat (48 + n % 10)]

/-- Python `str(n)` for a natural number. -/
def natToString (n : Nat) : String := String.mk (natToCharsAux (n + 1) n)

/-- Python `str(i)` for an integer. -/
def intToString : Int → String
  | Int.ofNat n => natToString n
  | Int.negSucc n => "-" ++ natToString (n + 1)

/-! ## `json.dumps` and Python `str()` of parsed JSON values -/

/-- JSON string escaping for the characters the connector can emit. -/
def escChar (c : Char) : String :=
  if c == '"' then "\\\""
  else if c == '\\' then "\\\\"
  else if c == '\n' then "\\n"
  else if c == '\t' then "\\t"
  else if c == '\r' then "\\r"
  else Char.toString c

/-- Escape every character of a string for a JSON string literal. -/
def escString (s : String) : String := joinWith ("") (s.data.map escChar)

mutual
/-- `json.dumps` with default separators (`", "` and `": "`). -/
def dumps : JVal → String
  | JVal.null => "null"
  | JVal.bool b => if b then "true" else "false"
  | JVal.num n => intToString n
  | JVal.str s => "\"" ++ escString s ++ "\""
  | JVal.arr xs => "[" ++ dumpsList xs ++ "]"
  | JVal.obj fs => Char.toString lbrace ++ dumpsObj fs ++ Char.toString rbrace

def dumpsList : List JVal → String
  | [] => ""
  | [x] => dumps x
  | x :: y :: xs => dumps x ++ ", " ++ dumpsList (y :: xs)

def dumpsObj : List (String × JVal) → String
  | [] => ""
  | [(k, v)] => "\"" ++ escString k ++ "\": " ++ dumps v
  | (k, v) :: y :: xs => "\"" ++ escString k ++ "\": " ++ dumps v ++ ", " ++ dumpsObj (y :: xs)
end

/-- A run of `n` spaces. -/
def spaces (n : Nat) : String := String.mk (List.replicate n ' ')

mutual
/-- `json.dumps(..., indent=2)`: two-space indented rendering with
separators `","` and `": "` (Python behaviour under `indent`). -/
def dumpsInd : Nat → JVal → String
  | _, JVal.null => "null"
  | _, JVal.bool b => if b then "true" else "false"
  | _, JVal.num n => intToString n
  | _, JVal.str s => "\"" ++ escString s ++ "\""
  | _, JVal.arr [] => "[]"
  | pad, JVal.arr (x :: xs) =>
    "[\n" ++ dumpsIndList (pad + 2) (x :: xs) ++ "\n" ++ spaces pad ++ "]"
  | _, JVal.obj [] => Char.toString lbrace ++ Char.toString rbrace
  | pad, JVal.obj (f :: fs) =>
    Char.toString lbrace ++ "\n" ++ dumpsIndObj (pad + 2) (f :: fs) ++ "\n"
      ++ spaces pad ++ Char.toString rbrace

def dumpsIndList : Nat → List JVal → String
  | _, [] => ""
  | pad, [x] => spaces pad ++ dumpsInd pad x
  | pad, x :: y :: xs => spaces pad ++ dumpsInd pad x ++ ",\n" ++ dumpsIndList pad (y :: xs)

def dumpsIndObj : Nat → List (String × JVal) → String
  | _, [] => ""
  | pad, [(k, v)] => spaces pad ++ "\"" ++ escString k ++ "\": " ++ dumpsInd pad v
  | pad, (k, v) :: y :: xs =>
    spaces pad ++ "\"" ++ escString k ++ "\": " ++ dumpsInd pad v ++ ",\n"
      ++ dumpsIndObj pad (y :: xs)
end

/-- `json.dumps(x, ensure_ascii=False, indent=2)` at top level. -/
def dumpsIndent (v : JVal) : String := dumpsInd 0 v

mutual
/-- Python `repr()` of a parsed-JSON value (used inside `str()` of
containers: single-quoted strings, `True` / `False` / `None`). -/
def pyRepr : JVal → String
  | JVal.null => "None"
  | JVal.bool b => if b then "True" else "False"
  | JVal.num n => intToString n
  | JVal.str s => "'" ++ s ++ "'"
  | JVal.arr xs => "[" ++ pyReprList xs ++ "]"
  | JVal.obj fs => Char.toString lbrace ++ pyReprObj fs ++ Char.toString rbrace

def pyReprList : List JVal → String
  | [] => ""
  | [x] => pyRepr x
  | x :: y :: xs => pyRepr x ++ ", " ++ pyReprList (y :: xs)

def pyReprObj : List (String × JVal) → String
  | [] => ""
  | [(k, v)] => "'" ++ k ++ "': " ++ pyRepr v
  | (k, v) :: y :: xs => "'" ++ k ++ "': " ++ pyRepr v ++ ", " ++ pyReprObj (y :: xs)
end

/-- Python `str()` of a parsed-JSON value (`str` of a string is itself;
containers render via `repr` of their elements). -/
def pyStr : JVal → String
  | JVal.str s => s
  | v => pyRepr v

/-! ## `json.loads`

Modelled from the spec: the Python standard-library JSON parser is not
part of the repository; the spec describes the generic pass-through as
parsing its raw argument payload with "parse failure is a local
structured error".  The model below parses the JSON fragment the
connector traffics in (null, booleans, decimal integers, strings with
the common escapes, arrays, objects); fractional numbers are outside the
model. -/

/-- Skip JSON whitespace. -/
def skipWs : List Char → List Char
  | [] => []
  | c :: cs => if c == ' ' || c == '\t' || c == '\n' || c == '\r' then skipWs cs else c :: cs

/-- Value of a hexadecimal digit character, if it is one. -/
def hexVal (c : Char) : Option Nat :=
  match digitVal c with
  | some d => some d
  | none =>
    if c == 'a' || c == 'A' then some 10 else if c == 'b' || c == 'B' then some 11
    else if c == 'c' || c == 'C' then some 12 else if c == 'd' || c == 'D' then some 13
    else if c == 'e' || c == 'E' then some 14 else if c == 'f' || c == 'F' then some 15
    else none

/-- Parse the body of a JSON string literal after the opening quote;
returns the content and the remaining input after the closing quote. -/
def parseStringBody : List Char → Option (List Char × List Char)
  | [] => none
  | '"' :: rest => some ([], rest)
  | '\\' :: 'u' :: h1 :: h2 :: h3 :: h4 :: rest =>
    match hexVal h1, hexVal h2, hexVal h3, hexVal h4 with
    | some a, some b, some c, some d =>
      (parseStringBody rest).map
        (fun p => (Char.ofNat (((a * 16 + b) * 16 + c) * 16 + d) :: p.1, p.2))
    | _, _, _, _ => none
  | '\\' :: e :: rest =>
    let dec : Option Char :=
      if e == '"' then some '"' else if e == '\\' then some '\\'
      else if e == '/' then some '/' else if e == 'n' then some '\n'
      else if e == 't' then some '\t' else if e == 'r' then some '\r'
      else if e == 'b' then some (Char.ofNat 8) else if e == 'f' then some (Char.ofNat 12)
      else none
    match dec with
    | some c => (parseStringBody rest).map (fun p => (c :: p.1, p.2))
    | none => none
  | c :: rest => (parseStringBody rest).map (fun p => (c :: p.1, p.2))

/-- Take a leading run of decimal digits. -/
def takeDigits : List Char → List Char × List Char
  | [] => ([], [])
  | c :: cs =>
    if (digitVal c).isSome then
      let p := takeDigits cs
      (c :: p.1, p.2)
    else ([], c :: cs)

/-- Parse a JSON integer (optional minus sign, decimal digits; a
fractional or exponent continuation is outside the model). -/
def parseNumber (cs : List Char) : Option (Int × List Char) :=
  let core : List Char → Option (Nat × List Char) := fun l =>
    let p := takeDigits l
    match digitsToNat p.1 none with
    | some n =>
      match p.2 with
      | c :: _ => if c == '.' || c == 'e' || c == 'E' then none else some (n, p.2)
      | [] => some (n, [])
    | none => none
  match cs with
  | '-' :: rest => (core rest).map (fun p => (-(p.1 : Int), p.2))
  | _ => (core cs).map (fun p => ((p.1 : Int), p.2))

mutual
/-- Parse one JSON value (fuel-driven recursive descent). -/
def parseVal : Nat → List Char → Except String (JVal × List Char)
  | 0, _ => Except.error ("too deeply nested")
  | fuel + 1, cs =>
    match skipWs cs with
    | [] => Except.error ("Expecting value")
    | 'n' :: 'u' :: 'l' :: 'l' :: rest => Except.ok (JVal.null, rest)
    | 't' :: 'r' :: 'u' :: 'e' :: rest => Except.ok (JVal.bool true, rest)
    | 'f' :: 'a' :: 'l' :: 's' :: 'e' :: rest => Except.ok (JVal.bool false, rest)
    | '"' :: rest =>
      match parseStringBody rest with
      | some (content, rest2) => Except.ok (JVal.str (String.mk content), rest2)
      | none => Except.error ("Unterminated string starting at")
    | '[' :: rest =>
      match skipWs rest with
      | ']' :: rest2 => Except.ok (JVal.arr [], rest2)
      | _ => (parseArrItems fuel rest).map (fun p => (JVal.arr p.1, p.2))
    | c :: rest =>
      if c == lbrace then
        match skipWs rest with
        | c2 :: rest2 =>
          if c2 == rbrace then Except.ok (JVal.obj [], rest2)
          else (parseObjItems fuel rest).map (fun p => (JVal.obj p.1, p.2))
        | [] => Except.error ("Expecting property name enclosed in double quotes")
      else
        match parseNumber (c :: rest) with
        | some (n, rest2) => Except.ok (JVal.num n, rest2)
        | none => Except.error ("Expecting value")

/-- Parse the comma-separated items of a JSON array, up to `]`. -/
def parseArrItems : Nat → List Char → Except String (List JVal × List Char)
  | 0, _ => Except.error ("too deeply nested")
  | fuel + 1, cs => do
    let p ← parseVal fuel cs
    match skipWs p.2 with
    | ',' :: rest2 => do
      let q ← parseArrItems fuel rest2
      Except.ok (p.1 :: q.1, q.2)
    | ']' :: rest2 => Except.ok ([p.1], rest2)
    | _ => Except.error ("Expecting , delimiter")

/-- Parse the comma-separated members of a JSON object, up to the
closing brace. -/
def parseObjItems : Nat → List Char → Except String (List (String × JVal) × List Char)
  | 0, _ => Except.error ("too deeply nested")
  | fuel + 1, cs =>
    match skipWs cs with
    | '"' :: rest =>
      match parseStringBody rest with
      | some (key, rest2) =>
        match skipWs rest2 with
        | ':' :: rest3 => do
          let p ← parseVal fuel rest3
          match skipWs p.2 with
          | ',' :: rest5 => do
            let q ← parseObjItems fuel rest5
            Except.ok ((String.mk key, p.1) :: q.1, q.2)
          | c :: rest5 =>
            if c == rbrace then Except.ok ([(String.mk key, p.1)], rest5)
            else Except.error ("Expecting , delimiter")
          | [] => Except.error ("Expecting , delimiter")
        | _ => Except.error ("Expecting : delimiter")
      | none => Except.error ("Unterminated string starting at")
    | _ => Except.error ("Expecting property name enclosed in double quotes")
end

/-- `json.loads`: parse a complete JSON document, rejecting trailing
garbage; an `Except.error` is a `json.JSONDecodeError` whose message is
interpolated into the connector's `ArgumentError` payload. -/
def loads (s : String) : Except String JVal :=
  match parseVal (s.data.length + 1) s.data with
  | Except.error m => Except.error m
  | Except.ok (v, rest) =>
    match skipWs rest with
    | [] => Except.ok v
    | _ => Except.error ("Extra data")

/-! ## Network effects: requests, responses, the exception monad -/

/-- One HTTP POST as issued by `requests.post(url, headers=..., json=..., timeout=...)`. -/
structure Request where
  url : String
  headers : List (String × String)
  body : JVal
  timeout : Int

/-- What the environment makes a single `requests.post` call do: return a
response (status code, optional `Mcp-Session-Id` response header, body as
parsed JSON or a JSON-decode failure for `response.json()`, raw text), or
raise `requests.exceptions.Timeout`, or raise some other exception. -/
inductive PostResult where
  | resp (status : Nat) (sessionId : Option String) (body : Except String JVal) (text : String)
  | timeout (msg : String)
  | raise (msg : String)

/-- A returned `requests` response object, as far as the connector reads it. -/
structure Resp where
  status : Nat
  sessionId : Option String
  body : Except String JVal
  text : String

/-- The network environment: the behaviour of every possible POST. -/
def Env : Type := Request → PostResult

/-- A Python exception as distinguished by the connector's handlers:
`requests.exceptions.Timeout` versus every other `Exception` (carrying
its `str()` message). -/
inductive PyExc where
  | timeout (msg : String)
  | exc (msg : String)

/-- Python `str(e)` of a caught exception. -/
def excMessage : PyExc → String
  | PyExc.timeout m => m
  | PyExc.exc m => m

/-- Execution monad: state is the trace of attempted network calls, and
an `Except.error` outcome is an uncaught Python exception propagating to
the caller. -/
def M (α : Type) : Type := List Request → Except PyExc α × List Request

instance : Monad M where
  pure a := fun tr => (Except.ok a, tr)
  bind m k := fun tr =>
    match m tr with
    | (Except.ok a, tr1) => k a tr1
    | (Except.error e, tr1) => (Except.error e, tr1)

/-- Raise an exception. -/
def M.throw {α : Type} (e : PyExc) : M α := fun tr => (Except.error e, tr)

/-- Python `try`/`except`: run `m`; on an exception, run the handler. -/
def M.tryCatch {α : Type} (m : M α) (h : PyExc → M α) : M α := fun tr =>
  match m tr with
  | (Except.ok a, tr1) => (Except.ok a, tr1)
  | (Except.error e, tr1) => h e tr1

/-- `requests.post`: records the attempted call on the trace, then
returns the response or raises, as the environment dictates. -/
def M.post (env : Env) (r : Request) : M Resp := fun tr =>
  match env r with
  | PostResult.resp st sid body text => (Except.ok ⟨st, sid, body, text⟩, tr ++ [r])
  | PostResult.timeout m => (Except.error (PyExc.timeout m), tr ++ [r])
  | PostResult.raise m => (Except.error (PyExc.exc m), tr ++ [r])

/-- Embed a pure fallible computation (its error is a raised exception). -/
def liftE {α : Type} : Except PyExc α → M α
  | Except.ok a => pure a
  | Except.error e => M.throw e

/-- `response.json()`: yields the parsed body or raises `JSONDecodeError`. -/
def liftJson : Except String JVal → M JVal
  | Except.ok v => pure v
  | Except.error m => M.throw (PyExc.exc m)

/-! ## Configuration (`Valves`, `UserValves`, `Tools.__init__`) -/

/-- Admin-level configuration, with the `Field(default=...)` values. -/
structure Valves where
  MCP_SERVER_URL : String := "https://<LITELLM_APU_URL>/mcp/"
  MCP_SERVER_GROUP : String := "<MCP_GROUP>"
  ENABLED_TOOLS : String := ""
  READ_ONLY_MODE : Bool := true

/-- User-level configuration, with the `Field(default=...)` values. -/
structure UserValves where
  LITELLM_API_KEY : String := ""
  JIRA_PAT : String := ""
  REQUEST_TIMEOUT : Int := 120

/-- The tool object: `__init__` installs default valves and the fixed
protocol/client constants. -/
structure Tools where
  valves : Valves := {}
  user_valves : UserValves := {}
  protocol_version : String := "2024-11-05"
  client_name : String := "OpenWebUI-MCP-Jira"
  client_version : String := "1.2.0"

/-- A freshly constructed `Tools()` instance. -/
def Tools.new : Tools := {}

/-! ## Credential resolver (`_get_user_valves`) -/

/-- What the host stored under `__user__["valves"]`: an actual
`UserValves` instance, or some loosely-typed (JSON-shaped) value. -/
inductive ValvesField where
  | typed (uv : UserValves)
  | raw (v : JVal)

/-- Caller context: `none` models a falsy `__user__` (absent / `None` /
empty dict); `some none` models a dict whose `"valves"` entry is missing
or `None`; `some (some f)` models a dict carrying `f` under `"valves"`. -/
def UserCtx : Type := Option (Option ValvesField)

/-- Pydantic validation of a string-typed field: only `str` input is
accepted (pydantic v2 does not coerce numbers to strings). -/
def coerceStrField (field : String) : JVal → Except String String
  | JVal.str s => Except.ok s
  | _ => Except.error ("1 validation error for UserValves: " ++ field
      ++ " - input should be a valid string")

/-- Pydantic validation of an int-typed field: accepts an integer or a
decimal integer string; rejects booleans, fractions and anything else. -/
def coerceIntField (field : String) : JVal → Except String Int
  | JVal.num n => Except.ok n
  | JVal.str s =>
    match pyToInt s with
    | some n => Except.ok n
    | none => Except.error ("1 validation error for UserValves: " ++ field
        ++ " - input should be a valid integer, unable to parse string as an integer")
  | _ => Except.error ("1 validation error for UserValves: " ++ field
      ++ " - input should be a valid integer")

/-- `UserValves(**valves)` on a dict: validate each declared field,
defaulting absent ones; extra keys are ignored; a failed validation is a
raised `pydantic.ValidationError`. -/
def UserValves.ofDict (d : List (String × JVal)) : Except String UserValves := do
  let api ← match lookupField d ("LITELLM_API_KEY") with
    | none => Except.ok ("")
    | some v => coerceStrField ("LITELLM_API_KEY") v
  let pat ← match lookupField d ("JIRA_PAT") with
    | none => Except.ok ("")
    | some v => coerceStrField ("JIRA_PAT") v
  let tmo ← match lookupField d ("REQUEST_TIMEOUT") with
    | none => Except.ok 120
    | some v => coerceIntField ("REQUEST_TIMEOUT") v
  Except.ok ⟨api, pat, tmo⟩

/-- `_get_user_valves`: extract `UserValves` from `__user__`, handling a
typed instance, a dict (validated — which can raise), and the falsy /
fallback shapes (which yield the defaults `self.user_valves`). -/
def Tools._get_user_valves (t : Tools) (user : UserCtx) : Except String UserValves :=
  match user with
  | none => Except.ok t.user_valves
  | some none => Except.ok t.user_valves
  | some (some (ValvesField.typed uv)) => Except.ok uv
  | some (some (ValvesField.raw (JVal.obj d))) => UserValves.ofDict d
  | some (some (ValvesField.raw _)) => Except.ok t.user_valves

/-- Resolution happens outside any `try` block in every public
operation: a validation error is a raised exception in `M`. -/
def liftResolve : Except String UserValves → M UserValves
  | Except.ok uv => pure uv
  | Except.error m => M.throw (PyExc.exc m)

/-! ## Headers, payloads, write-tool classification -/

/-- `_get_headers`: base headers plus conditional proxy-auth,
backend-auth and session headers (each added only when truthy). -/
def Tools._get_headers (t : Tools) (user_valves : UserValves) (session_id : Option String) :
    List (String × String) :=
  [("Content-Type", "application/json"),
   ("Accept", "application/json, text/event-stream;q=0.5"),
   ("User-Agent", t.client_name ++ "/" ++ t.client_version),
   ("Mcp-Protocol-Version", t.protocol_version),
   ("x-mcp-servers", t.valves.MCP_SERVER_GROUP)]
  ++ (if user_valves.LITELLM_API_KEY ≠ "" then
        [("x-litellm-api-key", "Bearer " ++ user_valves.LITELLM_API_KEY)] else [])
  ++ (if user_valves.JIRA_PAT ≠ "" then
        [("x-mcp-jira-authorization", "Token " ++ user_valves.JIRA_PAT)] else [])
  ++ (match session_id with
      | some s => if s ≠ "" then [("Mcp-Session-Id", s)] else []
      | none => [])

/-- `_json_rpc_payload`: JSON-RPC 2.0 envelope; `params` is included
only when not `None`. -/
def _json_rpc_payload (method : String) (params : Option JVal) (request_id : Int) : JVal :=
  JVal.obj ([("jsonrpc", JVal.str ("2.0")), ("method", JVal.str method),
    ("id", JVal.num request_id)]
    ++ (match params with | some p => [("params", p)] | none => []))

/-- The fixed `write_tools` set from `_is_write_tool` (as a list). -/
def write_tools : List String :=
  ["jira_create_issue", "jira_update_issue", "jira_delete_issue", "jira_batch_create_issues",
   "jira_add_comment", "jira_transition_issue", "jira_add_worklog", "jira_link_to_epic",
   "jira_create_sprint", "jira_update_sprint", "jira_create_issue_link",
   "jira_remove_issue_link", "jira_create_version", "jira_batch_create_versions",
   "jira_create_remote_issue_link"]

/-- `_is_write_tool` (a method that never reads `self`). -/
def _is_write_tool (tool_name : String) : Bool := write_tools.contains tool_name

/-- `_read_only_message` (a method that never reads `self`); the odd
leading characters reproduce the file's bytes exactly. -/
def _read_only_message (operation : String) : String :=
  "ðŸ”’ **Read-Only Mode Active**\n\nI cannot " ++ operation
    ++ " because the Jira integration is currently in read-only mode. This is a safety setting configured by your administrator.\n\nIf you need to perform this action, please:\n1. Contact your administrator to enable write access, or\n2. Perform this action directly in Jira"

/-! ## Session handshake (`_handshake`) -/

/-- The `params` of the `initialize` request. -/
def Tools.initParams (t : Tools) : JVal :=
  JVal.obj [("protocolVersion", JVal.str t.protocol_version),
    ("capabilities", JVal.obj [("roots", JVal.obj [("listChanged", JVal.bool true)]),
      ("sampling", JVal.obj [])]),
    ("clientInfo", JVal.obj [("name", JVal.str t.client_name),
      ("version", JVal.str t.client_version)])]

/-- `handshake_timeout = max(30, user_valves.REQUEST_TIMEOUT // 4)`
(Python `//` is floor division). -/
def handshake_timeout (user_valves : UserValves) : Int :=
  max 30 (Int.fdiv user_valves.REQUEST_TIMEOUT 4)

/-- The `initialize` POST issued by `_handshake`. -/
def Tools.initRequest (t : Tools) (user_valves : UserValves) : Request :=
  { url := t.valves.MCP_SERVER_URL,
    headers := t._get_headers user_valves none,
    body := _json_rpc_payload ("initialize") (some t.initParams) 1,
    timeout := handshake_timeout user_valves }

/-- The `notifications/initialized` payload (built inline, no id). -/
def notify_payload : JVal :=
  JVal.obj [("jsonrpc", JVal.str ("2.0")), ("method", JVal.str ("notifications/initialized"))]

/-- The notification POST issued by `_handshake` (fixed 10s timeout). -/
def Tools.notifyRequest (t : Tools) (user_valves : UserValves) (session_id : Option String) :
    Request :=
  { url := t.valves.MCP_SERVER_URL,
    headers := t._get_headers user_valves session_id,
    body := notify_payload,
    timeout := 10 }

/-- Does the needle occur as a contiguous run within the haystack? -/
def containsChars (needle : List Char) : List Char → Bool
  | [] => leadingMatch needle []
  | c :: cs => leadingMatch needle (c :: cs) || containsChars needle cs

/-- Python substring membership `needle in hay` on strings. -/
def pyInStr (needle hay : String) : Bool := containsChars needle.data hay.data

/-- Python `"error" in data` combined with the subsequent
`data["error"]` access: on a dict it reports the entry (if any); on a
list or string, membership may hold but indexing by string raises; on
other values the membership test itself raises `TypeError`. -/
def errorCheck : JVal → Except PyExc (Option JVal)
  | JVal.obj fs => Except.ok (lookupField fs ("error"))
  | JVal.arr xs =>
    if xs.contains (JVal.str ("error")) then
      Except.error (PyExc.exc ("TypeError: list indices must be integers or slices, not str"))
    else Except.ok none
  | JVal.str s =>
    if pyInStr ("error") s then
      Except.error (PyExc.exc ("TypeError: string indices must be integers"))
    else Except.ok none
  | _ => Except.error (PyExc.exc ("TypeError: argument of type is not iterable"))

/-- `_handshake`, lines 139–157: after the `initialize` POST returned a
response — raise on non-200 status, read the optional `Mcp-Session-Id`
response header, parse the body (raising on non-JSON), raise on an
`error` member, fire the `initialized` notification (response ignored,
but a raising POST propagates), and return the session id. -/
def Tools.handshakeRest (t : Tools) (env : Env) (user_valves : UserValves) (response : Resp) :
    M (Option String) :=
  if response.status ≠ 200 then
    M.throw (PyExc.exc ("HTTP " ++ natToString response.status ++ ": " ++ response.text))
  else do
    let session_id := response.sessionId
    let data ← liftJson response.body
    match ← liftE (errorCheck data) with
    | some errVal => M.throw (PyExc.exc ("MCP Error: " ++ pyStr errVal))
    | none => do
      let _ ← M.post env (t.notifyRequest user_valves session_id)
      pure session_id

/-- `_handshake`: POST `initialize`, then process the response
(`Tools.handshakeRest`). -/
def Tools._handshake (t : Tools) (env : Env) (user_valves : UserValves) : M (Option String) := do
  let response ← M.post env (t.initRequest user_valves)
  t.handshakeRest env user_valves response

/-! ## Tool invoker (`_call_tool`) and response normalization -/

/-- `data.get(key, default)`: only dicts have `.get`; anything else
raises `AttributeError`. -/
def pyGet (v : JVal) (key : String) (dflt : JVal) : Except PyExc JVal :=
  match v with
  | JVal.obj fs => Except.ok ((lookupField fs key).getD dflt)
  | _ => Except.error (PyExc.exc ("AttributeError: object has no attribute get"))

/-- Python `for item in content`: lists yield their items, strings yield
one-character strings, dicts yield their keys, anything else raises
`TypeError`. -/
def iterList : JVal → Except PyExc (List JVal)
  | JVal.arr xs => Except.ok xs
  | JVal.str s => Except.ok (s.data.map (fun c => JVal.str (Char.toString c)))
  | JVal.obj fs => Except.ok (fs.map (fun kv => JVal.str kv.1))
  | _ => Except.error (PyExc.exc ("TypeError: object is not iterable"))

/-- The `for item in content` loop of `_call_tool`: collect the `text`
of `type == "text"` items (default `""`), a `[Resource: uri]` marker for
`type == "resource"` items (uri default `"unknown"`), skip every other
type; `.get` on a non-dict item or non-dict resource raises. The
collected values are kept as JSON values because Python appends whatever
`item.get("text", "")` returned. -/
def collectItems : List JVal → Except PyExc (List JVal)
  | [] => Except.ok []
  | item :: rest =>
    match item with
    | JVal.obj fs =>
      if (lookupField fs ("type")).getD JVal.null == JVal.str ("text") then do
        let others ← collectItems rest
        Except.ok ((lookupField fs ("text")).getD (JVal.str ("")) :: others)
      else if (lookupField fs ("type")).getD JVal.null == JVal.str ("resource") then
        match (lookupField fs ("resource")).getD (JVal.obj []) with
        | JVal.obj rfs => do
          let others ← collectItems rest
          Except.ok (JVal.str ("[Resource: "
            ++ pyStr ((lookupField rfs ("uri")).getD (JVal.str ("unknown"))) ++ "]") :: others)
        | _ => Except.error (PyExc.exc ("AttributeError: object has no attribute get"))
      else collectItems rest
    | _ => Except.error (PyExc.exc ("AttributeError: object has no attribute get"))

/-- `"\n".join(text_results)` demands every element be a string, else
`TypeError`. -/
def allStrings : List JVal → Except PyExc (List String)
  | [] => Except.ok []
  | JVal.str s :: rest => do
    let others ← allStrings rest
    Except.ok (s :: others)
  | _ :: _ => Except.error (PyExc.exc ("TypeError: sequence item expected str instance"))

/-- Lines 223–233 of `_call_tool`: extract `result.content` (with `{}` /
`[]` defaults), collect recognizable items, and return the
newline-join — or `json.dumps(data)` when nothing was collected. -/
def normalizeSuccess (data : JVal) : Except PyExc String := do
  let result ← pyGet data ("result") (JVal.obj [])
  let content ← pyGet result ("content") (JVal.arr [])
  let items ← iterList content
  let text_results ← collectItems items
  if text_results.isEmpty then
    Except.ok (dumps data)
  else do
    let strs ← allStrings text_results
    Except.ok (joinWith ("\n") strs)

/-- The `ConfigurationError` payload returned when no Jira PAT is set. -/
def config_error_payload : String :=
  dumps (JVal.obj [("error", JVal.str ("Jira PAT not configured")),
    ("message", JVal.str ("Please configure your Jira Personal Access Token in User Settings"))])

/-- The `TimeoutError` payload of `_call_tool`. -/
def timeout_error_payload (user_valves : UserValves) : String :=
  dumps (JVal.obj [("error", JVal.str ("Request timeout after "
    ++ intToString user_valves.REQUEST_TIMEOUT
    ++ "s - try increasing REQUEST_TIMEOUT in user settings"))])

/-- The `except` clauses of `_call_tool`: `requests.exceptions.Timeout`
first, then any other `Exception` (dumped with its message). -/
def call_tool_handler (user_valves : UserValves) : PyExc → M String
  | PyExc.timeout _ => pure (timeout_error_payload user_valves)
  | PyExc.exc m => pure (dumps (JVal.obj [("error", JVal.str m)]))

/-- The `tools/call` POST issued by `_call_tool` (request id 3, the
caller's configured timeout). -/
def Tools.callRequest (t : Tools) (user_valves : UserValves) (session_id : Option String)
    (tool_name : String) (arguments : JVal) : Request :=
  { url := t.valves.MCP_SERVER_URL,
    headers := t._get_headers user_valves session_id,
    body := _json_rpc_payload ("tools/call")
      (some (JVal.obj [("name", JVal.str tool_name), ("arguments", arguments)])) 3,
    timeout := user_valves.REQUEST_TIMEOUT }

/-- The `try` block of `_call_tool`: handshake, `tools/call` POST, then
classify the outcome (non-200 → transport-error payload; `error` member
→ protocol-error payload with the extracted message; success →
normalized content). -/
def Tools.callToolBody (t : Tools) (env : Env) (tool_name : String) (arguments : JVal)
    (user_valves : UserValves) : M String := do
  let session_id ← t._handshake env user_valves
  let response ← M.post env (t.callRequest user_valves session_id tool_name arguments)
  if response.status ≠ 200 then
    pure (dumps (JVal.obj [("error",
      JVal.str ("HTTP " ++ natToString response.status ++ ": " ++ response.text))]))
  else do
    let data ← liftJson response.body
    match ← liftE (errorCheck data) with
    | some err =>
      let err_msg : JVal :=
        match err with
        | JVal.obj efs => (lookupField efs ("message")).getD (JVal.str (pyStr err))
        | _ => JVal.str (pyStr err)
      pure (dumps (JVal.obj [("error", err_msg)]))
    | none => liftE (normalizeSuccess data)

/-- `_call_tool`: the missing-PAT guard short-circuits before any
network call; everything else runs inside `try`/`except`, so every
exception becomes a structured string result. -/
def Tools._call_tool (t : Tools) (env : Env) (tool_name : String) (arguments : JVal)
    (user_valves : UserValves) : M String :=
  if user_valves.JIRA_PAT = "" then pure config_error_payload
  else M.tryCatch (t.callToolBody env tool_name arguments user_valves)
    (call_tool_handler user_valves)

/-! ## Discovery (`discover_jira_tools`) -/

/-- `enabled_list = [t.strip() for t in ENABLED_TOOLS.split(",") if t.strip()]`. -/
def enabled_list (s : String) : List String :=
  ((pySplitComma s).map pyStrip).filter (fun x => x ≠ "")

/-- The `tools/list` POST issued by discovery (request id 2, fixed 60s
timeout). -/
def Tools.listRequest (t : Tools) (user_valves : UserValves) (session_id : Option String) :
    Request :=
  { url := t.valves.MCP_SERVER_URL,
    headers := t._get_headers user_valves session_id,
    body := _json_rpc_payload ("tools/list") (some (JVal.obj [])) 2,
    timeout := 60 }

/-- The `for tool in tools` loop of discovery: skip tools without the
`jira_` prefix, tools absent from a non-empty enabled list, and (in
read-only mode) write tools; keep `name` / `description` /
`input_schema` records for the rest. A non-dict tool or a non-string
name raises `AttributeError` (caught by the operation's handler). -/
def Tools.processToolList (t : Tools) : List JVal → Except PyExc (List JVal)
  | [] => Except.ok []
  | tool :: rest =>
    match tool with
    | JVal.obj fs =>
      match (lookupField fs ("name")).getD (JVal.str ("")) with
      | JVal.str name =>
        if !(pyStartsWith name ("jira_")) then t.processToolList rest
        else if !(enabled_list t.valves.ENABLED_TOOLS).isEmpty
            && !((enabled_list t.valves.ENABLED_TOOLS).contains name) then
          t.processToolList rest
        else if t.valves.READ_ONLY_MODE && _is_write_tool name then
          t.processToolList rest
        else do
          let others ← t.processToolList rest
          Except.ok (JVal.obj [("name", JVal.str name),
            ("description", (lookupField fs ("description")).getD (JVal.str (""))),
            ("input_schema", (lookupField fs ("inputSchema")).getD (JVal.obj []))] :: others)
      | _ => Except.error (PyExc.exc ("AttributeError: object has no attribute startswith"))
    | _ => Except.error (PyExc.exc ("AttributeError: object has no attribute get"))

/-- The single `except Exception` clause of discovery. -/
def discovery_handler : PyExc → M String := fun e =>
  pure (dumps (JVal.obj [("error", JVal.str ("Discovery failed: " ++ excMessage e))]))

/-- The `try` block of `discover_jira_tools`: handshake, `tools/list`
POST, classify, filter, and render the kept tools as indented JSON. -/
def Tools.discoverBody (t : Tools) (env : Env) (user_valves : UserValves) : M String := do
  let session_id ← t._handshake env user_valves
  let response ← M.post env (t.listRequest user_valves session_id)
  if response.status ≠ 200 then
    pure (dumps (JVal.obj [("error",
      JVal.str ("HTTP " ++ natToString response.status ++ ": " ++ response.text))]))
  else do
    let result ← liftJson response.body
    match ← liftE (errorCheck result) with
    | some errVal => pure (dumps (JVal.obj [("error", errVal)]))
    | none => do
      let r1 ← liftE (pyGet result ("result") (JVal.obj []))
      let toolsVal ← liftE (pyGet r1 ("tools") (JVal.arr []))
      let toolItems ← liftE (iterList toolsVal)
      let jira_tools ← liftE (t.processToolList toolItems)
      pure (dumpsIndent (JVal.arr jira_tools))

/-- `discover_jira_tools`: resolve credentials (outside `try`), guard on
the missing PAT, then run the discovery body under `except Exception`. -/
def Tools.discover_jira_tools (t : Tools) (env : Env) (user : UserCtx) : M String := do
  let user_valves ← liftResolve (t._get_user_valves user)
  if user_valves.JIRA_PAT = "" then pure config_error_payload
  else M.tryCatch (t.discoverBody env user_valves) discovery_handler

/-! ## Public operations

Each `async def` method becomes a function `Tools.<name>`; the
`__event_emitter__` parameter is never read by any of them and is
omitted.  Every operation resolves its user valves outside any `try`
block (so a pydantic validation failure propagates), except the
read-only gate of write operations and of the generic pass-through,
which fires before resolution. -/

/-- `jira_search(jql, max_results=20, fields="")`. -/
def Tools.jira_search (t : Tools) (env : Env) (jql : String) (max_results : Int)
    (fields : String) (user : UserCtx) : M String := do
  let user_valves ← liftResolve (t._get_user_valves user)
  let arguments := JVal.obj ([("jql", JVal.str jql), ("limit", JVal.num max_results)]
    ++ (if fields ≠ "" then [("fields", JVal.str fields)] else []))
  t._call_tool env ("jira_search") arguments user_valves

/-- `jira_get_issue(issue_key, expand="")`. -/
def Tools.jira_get_issue (t : Tools) (env : Env) (issue_key : String) (expand : String)
    (user : UserCtx) : M String := do
  let user_valves ← liftResolve (t._get_user_valves user)
  let arguments := JVal.obj ([("issue_key", JVal.str issue_key)]
    ++ (if expand ≠ "" then [("expand", JVal.str expand)] else []))
  t._call_tool env ("jira_get_issue") arguments user_valves

/-- `jira_get_all_projects()`. -/
def Tools.jira_get_all_projects (t : Tools) (env : Env) (user : UserCtx) : M String := do
  let user_valves ← liftResolve (t._get_user_valves user)
  t._call_tool env ("jira_get_all_projects") (JVal.obj []) user_valves

/-- `jira_get_project_issues(project_key, max_results=50)`. -/
def Tools.jira_get_project_issues (t : Tools) (env : Env) (project_key : String)
    (max_results : Int) (user : UserCtx) : M String := do
  let user_valves ← liftResolve (t._get_user_valves user)
  t._call_tool env ("jira_get_project_issues")
    (JVal.obj [("project_key", JVal.str project_key), ("limit", JVal.num max_results)])
    user_valves

/-- `jira_get_transitions(issue_key)`. -/
def Tools.jira_get_transitions (t : Tools) (env : Env) (issue_key : String)
    (user : UserCtx) : M String := do
  let user_valves ← liftResolve (t._get_user_valves user)
  t._call_tool env ("jira_get_transitions")
    (JVal.obj [("issue_key", JVal.str issue_key)]) user_valves

/-- `jira_get_agile_boards(project_key="")`. -/
def Tools.jira_get_agile_boards (t : Tools) (env : Env) (project_key : String)
    (user : UserCtx) : M String := do
  let user_valves ← liftResolve (t._get_user_valves user)
  let arguments := JVal.obj
    (if project_key ≠ "" then [("project_key", JVal.str project_key)] else [])
  t._call_tool env ("jira_get_agile_boards") arguments user_valves

/-- `jira_get_sprints_from_board(board_id, state="")`. -/
def Tools.jira_get_sprints_from_board (t : Tools) (env : Env) (board_id : String)
    (state : String) (user : UserCtx) : M String := do
  let user_valves ← liftResolve (t._get_user_valves user)
  let arguments := JVal.obj ([("board_id", JVal.str board_id)]
    ++ (if state ≠ "" then [("state", JVal.str state)] else []))
  t._call_tool env ("jira_get_sprints_from_board") arguments user_valves

/-- `jira_get_sprint_issues(sprint_id)`. -/
def Tools.jira_get_sprint_issues (t : Tools) (env : Env) (sprint_id : String)
    (user : UserCtx) : M String := do
  let user_valves ← liftResolve (t._get_user_valves user)
  t._call_tool env ("jira_get_sprint_issues")
    (JVal.obj [("sprint_id", JVal.str sprint_id)]) user_valves

/-- `jira_get_worklog(issue_key)`. -/
def Tools.jira_get_worklog (t : Tools) (env : Env) (issue_key : String)
    (user : UserCtx) : M String := do
  let user_valves ← liftResolve (t._get_user_valves user)
  t._call_tool env ("jira_get_worklog")
    (JVal.obj [("issue_key", JVal.str issue_key)]) user_valves

/-- `jira_get_user_profile(user_identifier)`. -/
def Tools.jira_get_user_profile (t : Tools) (env : Env) (user_identifier : String)
    (user : UserCtx) : M String := do
  let user_valves ← liftResolve (t._get_user_valves user)
  t._call_tool env ("jira_get_user_profile")
    (JVal.obj [("user_identifier", JVal.str user_identifier)]) user_valves

/-- `jira_search_fields(keyword="", limit=10)`. -/
def Tools.jira_search_fields (t : Tools) (env : Env) (keyword : String) (limit : Int)
    (user : UserCtx) : M String := do
  let user_valves ← liftResolve (t._get_user_valves user)
  t._call_tool env ("jira_search_fields")
    (JVal.obj [("keyword", JVal.str keyword), ("limit", JVal.num limit)]) user_valves

/-- `jira_get_project_versions(project_key)`. -/
def Tools.jira_get_project_versions (t : Tools) (env : Env) (project_key : String)
    (user : UserCtx) : M String := do
  let user_valves ← liftResolve (t._get_user_valves user)
  t._call_tool env ("jira_get_project_versions")
    (JVal.obj [("project_key", JVal.str project_key)]) user_valves

/-- `jira_get_board_issues(board_id, jql="", max_results=50)` (the JQL
falls back to `"order by rank"` when empty). -/
def Tools.jira_get_board_issues (t : Tools) (env : Env) (board_id : String) (jql : String)
    (max_results : Int) (user : UserCtx) : M String := do
  let user_valves ← liftResolve (t._get_user_valves user)
  let arguments := JVal.obj [("board_id", JVal.str board_id),
    ("jql", JVal.str (if jql ≠ "" then jql else "order by rank")),
    ("limit", JVal.num max_results)]
  t._call_tool env ("jira_get_board_issues") arguments user_valves

/-- `jira_get_link_types()`. -/
def Tools.jira_get_link_types (t : Tools) (env : Env) (user : UserCtx) : M String := do
  let user_valves ← liftResolve (t._get_user_valves user)
  t._call_tool env ("jira_get_link_types") (JVal.obj []) user_valves

/-- `jira_create_issue(project_key, summary, issue_type="Task", ...)`:
read-only gate first, then optional fields. -/
def Tools.jira_create_issue (t : Tools) (env : Env) (project_key : String) (summary : String)
    (issue_type : String) (description : String) (assignee : String) (priority : String)
    (labels : String) (user : UserCtx) : M String :=
  if t.valves.READ_ONLY_MODE then
    pure (_read_only_message ("create a new Jira issue"))
  else do
    let user_valves ← liftResolve (t._get_user_valves user)
    let arguments := JVal.obj ([("project_key", JVal.str project_key),
      ("summary", JVal.str summary), ("issue_type", JVal.str issue_type)]
      ++ (if description ≠ "" then [("description", JVal.str description)] else [])
      ++ (if assignee ≠ "" then [("assignee", JVal.str assignee)] else [])
      ++ (if priority ≠ "" then [("priority", JVal.str priority)] else [])
      ++ (if labels ≠ "" then [("labels", JVal.str labels)] else []))
    t._call_tool env ("jira_create_issue") arguments user_valves

/-- `jira_update_issue(issue_key, summary="", ...)`: read-only gate
first; builds a `fields` sub-object; labels are split and stripped. -/
def Tools.jira_update_issue (t : Tools) (env : Env) (issue_key : String) (summary : String)
    (description : String) (assignee : String) (priority : String) (labels : String)
    (user : UserCtx) : M String :=
  if t.valves.READ_ONLY_MODE then
    pure (_read_only_message ("update issue " ++ issue_key))
  else do
    let user_valves ← liftResolve (t._get_user_valves user)
    let fields := JVal.obj (
      (if summary ≠ "" then [("summary", JVal.str summary)] else [])
      ++ (if description ≠ "" then [("description", JVal.str description)] else [])
      ++ (if assignee ≠ "" then [("assignee", JVal.str assignee)] else [])
      ++ (if priority ≠ "" then
            [("priority", JVal.obj [("name", JVal.str priority)])] else [])
      ++ (if labels ≠ "" then
            [("labels", JVal.arr ((pySplitComma labels).map (fun l => JVal.str (pyStrip l))))]
          else []))
    t._call_tool env ("jira_update_issue")
      (JVal.obj [("issue_key", JVal.str issue_key), ("fields", fields)]) user_valves

/-- `jira_transition_issue(issue_key, transition_id, comment="")`. -/
def Tools.jira_transition_issue (t : Tools) (env : Env) (issue_key : String)
    (transition_id : String) (comment : String) (user : UserCtx) : M String :=
  if t.valves.READ_ONLY_MODE then
    pure (_read_only_message ("transition issue " ++ issue_key))
  else do
    let user_valves ← liftResolve (t._get_user_valves user)
    let arguments := JVal.obj ([("issue_key", JVal.str issue_key),
      ("transition_id", JVal.str transition_id)]
      ++ (if comment ≠ "" then [("comment", JVal.str comment)] else []))
    t._call_tool env ("jira_transition_issue") arguments user_valves

/-- `jira_add_comment(issue_key, comment)`. -/
def Tools.jira_add_comment (t : Tools) (env : Env) (issue_key : String) (comment : String)
    (user : UserCtx) : M String :=
  if t.valves.READ_ONLY_MODE then
    pure (_read_only_message ("add a comment to issue " ++ issue_key))
  else do
    let user_valves ← liftResolve (t._get_user_valves user)
    t._call_tool env ("jira_add_comment")
      (JVal.obj [("issue_key", JVal.str issue_key), ("comment", JVal.str comment)])
      user_valves

/-- `jira_add_worklog(issue_key, time_spent, comment="", started="")`. -/
def Tools.jira_add_worklog (t : Tools) (env : Env) (issue_key : String) (time_spent : String)
    (comment : String) (started : String) (user : UserCtx) : M String :=
  if t.valves.READ_ONLY_MODE then
    pure (_read_only_message ("add a worklog to issue " ++ issue_key))
  else do
    let user_valves ← liftResolve (t._get_user_valves user)
    let arguments := JVal.obj ([("issue_key", JVal.str issue_key),
      ("time_spent", JVal.str time_spent)]
      ++ (if comment ≠ "" then [("comment", JVal.str comment)] else [])
      ++ (if started ≠ "" then [("started", JVal.str started)] else []))
    t._call_tool env ("jira_add_worklog") arguments user_valves

/-- `jira_link_to_epic(issue_key, epic_key)`. -/
def Tools.jira_link_to_epic (t : Tools) (env : Env) (issue_key : String) (epic_key : String)
    (user : UserCtx) : M String :=
  if t.valves.READ_ONLY_MODE then
    pure (_read_only_message ("link issue " ++ issue_key ++ " to epic " ++ epic_key))
  else do
    let user_valves ← liftResolve (t._get_user_valves user)
    t._call_tool env ("jira_link_to_epic")
      (JVal.obj [("issue_key", JVal.str issue_key), ("epic_key", JVal.str epic_key)])
      user_valves

/-- `jira_create_issue_link(link_type, inward_issue_key, outward_issue_key, comment="")`. -/
def Tools.jira_create_issue_link (t : Tools) (env : Env) (link_type : String)
    (inward_issue_key : String) (outward_issue_key : String) (comment : String)
    (user : UserCtx) : M String :=
  if t.valves.READ_ONLY_MODE then
    pure (_read_only_message ("create a link between " ++ inward_issue_key ++ " and "
      ++ outward_issue_key))
  else do
    let user_valves ← liftResolve (t._get_user_valves user)
    let arguments := JVal.obj ([("link_type", JVal.str link_type),
      ("inward_issue_key", JVal.str inward_issue_key),
      ("outward_issue_key", JVal.str outward_issue_key)]
      ++ (if comment ≠ "" then [("comment", JVal.str comment)] else []))
    t._call_tool env ("jira_create_issue_link") arguments user_valves

/-- `jira_delete_issue(issue_key)`. -/
def Tools.jira_delete_issue (t : Tools) (env : Env) (issue_key : String)
    (user : UserCtx) : M String :=
  if t.valves.READ_ONLY_MODE then
    pure (_read_only_message ("delete issue " ++ issue_key))
  else do
    let user_valves ← liftResolve (t._get_user_valves user)
    t._call_tool env ("jira_delete_issue")
      (JVal.obj [("issue_key", JVal.str issue_key)]) user_valves

/-- `call_mcp_tool(tool_name, arguments)`: dynamic read-only gate first
(before credential resolution and before parsing), then `json.loads` of
the raw argument string (parse failure → local `ArgumentError` payload,
no network), then the shared `_call_tool`. -/
def Tools.call_mcp_tool (t : Tools) (env : Env) (tool_name : String) (arguments : String)
    (user : UserCtx) : M String :=
  if t.valves.READ_ONLY_MODE && _is_write_tool tool_name then
    pure (_read_only_message ("execute '" ++ tool_name ++ "'"))
  else do
    let user_valves ← liftResolve (t._get_user_valves user)
    match loads arguments with
    | Except.error m =>
      pure (dumps (JVal.obj [("error", JVal.str ("Invalid JSON arguments: " ++ m))]))
    | Except.ok args_dict => t._call_tool env tool_name args_dict user_valves

/-! ## Spec-side definitions

These definitions transcribe the specification's wording (not the
source); the theorems below compare them with the embedded code. -/

/-- Spec wording for one content item: the text of a `type == "text"`
item, a `[Resource: uri]` placeholder for a `type == "resource"` item,
nothing for any other item. -/
def specPiece (item : JVal) : Option String :=
  match item with
  | JVal.obj fs =>
    if (lookupField fs ("type")).getD JVal.null == JVal.str ("text") then
      some (match (lookupField fs ("text")).getD (JVal.str ("")) with
        | JVal.str s => s
        | _ => "")
    else if (lookupField fs ("type")).getD JVal.null == JVal.str ("resource") then
      some ("[Resource: " ++ pyStr (match (lookupField fs ("resource")).getD (JVal.obj []) with
        | JVal.obj rfs => (lookupField rfs ("uri")).getD (JVal.str ("unknown"))
        | _ => JVal.str ("unknown")) ++ "]")
    else none
  | _ => none

/-- Spec wording for the whole normalization: collect the recognizable
pieces, join them with newlines, and fall back to the JSON encoding of
the whole response body when none exist. -/
def specNormalize (data : JVal) (items : List JVal) : String :=
  let pieces := items.filterMap specPiece
  if pieces.isEmpty then dumps data else joinWith ("\n") pieces

/-- Well-formedness of a content item under which Python's dynamic
accesses are safe: a dict whose `text` entry (when the type is `text`)
is a string and whose `resource` entry (when the type is `resource`) is
a dict. -/
def wfItem (v : JVal) : Bool :=
  match v with
  | JVal.obj fs =>
    if (lookupField fs ("type")).getD JVal.null == JVal.str ("text") then
      match (lookupField fs ("text")).getD (JVal.str ("")) with
      | JVal.str _ => true
      | _ => false
    else if (lookupField fs ("type")).getD JVal.null == JVal.str ("resource") then
      match (lookupField fs ("resource")).getD (JVal.obj []) with
      | JVal.obj _ => true
      | _ => false
    else true
  | _ => false

/-- Well-formedness of one listed tool: a dict whose `name` entry
(defaulted to `""`) is a string. -/
def wfTool (v : JVal) : Bool :=
  match v with
  | JVal.obj fs =>
    match (lookupField fs ("name")).getD (JVal.str ("")) with
    | JVal.str _ => true
    | _ => false
  | _ => false

/-- Spec wording for the discovery filter: keep exactly the tools whose
name starts with the domain prefix, that are in the allow-list whenever
the allow-list is non-empty, and that are not write tools whenever the
read-only flag is set; report name, description and input schema. -/
def specKeepTool (t : Tools) (v : JVal) : Option JVal :=
  match v with
  | JVal.obj fs =>
    match (lookupField fs ("name")).getD (JVal.str ("")) with
    | JVal.str name =>
      if pyStartsWith name ("jira_")
          && ((enabled_list t.valves.ENABLED_TOOLS).isEmpty
              || (enabled_list t.valves.ENABLED_TOOLS).contains name)
          && (!t.valves.READ_ONLY_MODE || !_is_write_tool name) then
        some (JVal.obj [("name", JVal.str name),
          ("description", (lookupField fs ("description")).getD (JVal.str (""))),
          ("input_schema", (lookupField fs ("inputSchema")).getD (JVal.obj []))])
      else none
    | _ => none
  | _ => none

/-! ## Properties of computations in `M` -/

/-- The computation returns a string result on every start trace: no
exception escapes to the host. -/
def neverRaises (m : M String) : Prop :=
  ∀ tr, ∃ s tr2, m tr = (Except.ok s, tr2)

/-- The computation only appends to the trace of network calls. -/
def appendsOnly {α : Type} (m : M α) : Prop :=
  ∀ tr, ∃ l, (m tr).2 = tr ++ l

/-- Did the run end in an uncaught exception? -/
def raisesToHost (r : Except PyExc String × List Request) : Bool :=
  match r.1 with
  | Except.error _ => true
  | Except.ok _ => false

/-- Is the caller context carrying a loosely-typed mapping under
`"valves"` (the one shape whose validation can raise)? -/
def isValvesMapping : UserCtx → Bool
  | some (some (ValvesField.raw (JVal.obj _))) => true
  | _ => false

/-! ## Concrete fixtures for witnesses and counterexamples -/

/-- The `method` member of a request body, used by concrete
environments to tell the three POSTs of an operation apart. -/
def reqMethod (r : Request) : Option JVal :=
  match r.body with
  | JVal.obj fs => lookupField fs ("method")
  | _ => none

/-- An environment in which every POST raises a connection error
(never consulted by the local-guard scenarios that use it). -/
def env0 : Env := fun _ => PostResult.raise ("connection refused")

/-- A user-valves record with a configured PAT. -/
def uvPat : UserValves :=
  { LITELLM_API_KEY := "k", JIRA_PAT := "pat", REQUEST_TIMEOUT := 120 }

/-- A caller context whose `valves` mapping fails pydantic validation
(`REQUEST_TIMEOUT` is a non-numeric string). -/
def badValvesCtx : UserCtx :=
  some (some (ValvesField.raw (JVal.obj [("REQUEST_TIMEOUT", JVal.str ("abc"))])))

/-- Environment for the text-normalization round-trip: the handshake
succeeds and `tools/call` returns two text items `"A"` and `"B"`. -/
def env5 : Env := fun r =>
  match reqMethod r with
  | some (JVal.str ("tools/call")) =>
    PostResult.resp 200 none (Except.ok (JVal.obj [("result", JVal.obj [("content",
      JVal.arr [JVal.obj [("type", JVal.str ("text")), ("text", JVal.str ("A"))],
                JVal.obj [("type", JVal.str ("text")), ("text", JVal.str ("B"))]])])])) ("")
  | _ =>
    PostResult.resp 200 (some ("sess-1"))
      (Except.ok (JVal.obj [("result", JVal.obj [])])) ("")

/-- Environment for the resource-normalization round-trip: `tools/call`
returns one resource item with uri `x://y`. -/
def env5r : Env := fun r =>
  match reqMethod r with
  | some (JVal.str ("tools/call")) =>
    PostResult.resp 200 none (Except.ok (JVal.obj [("result", JVal.obj [("content",
      JVal.arr [JVal.obj [("type", JVal.str ("resource")),
        ("resource", JVal.obj [("uri", JVal.str ("x://y"))])]])])])) ("")
  | _ =>
    PostResult.resp 200 (some ("sess-1"))
      (Except.ok (JVal.obj [("result", JVal.obj [])])) ("")

/-- Environment in which the `initialized` notification POST times out
while everything else succeeds. -/
def env6 : Env := fun r =>
  match reqMethod r with
  | some (JVal.str ("notifications/initialized")) => PostResult.timeout ("timed out")
  | _ =>
    PostResult.resp 200 (some ("sess-1"))
      (Except.ok (JVal.obj [("result", JVal.obj [])])) ("")

/-- Environment in which the `initialized` notification POST returns an
HTTP 500 failure response (but does not raise). -/
def env6b : Env := fun r =>
  match reqMethod r with
  | some (JVal.str ("notifications/initialized")) =>
    PostResult.resp 500 none (Except.error ("not json")) ("server error")
  | _ =>
    PostResult.resp 200 (some ("sess-1"))
      (Except.ok (JVal.obj [("result", JVal.obj [])])) ("")

/-- Admin valves for the discovery scenario: a three-name allow-list
and read-only mode. -/
def valves8 : Valves where
  MCP_SERVER_URL := "u"
  MCP_SERVER_GROUP := "g"
  ENABLED_TOOLS := "jira_search, jira_get_issue, jira_create_issue"
  READ_ONLY_MODE := true

/-- A tool object configured with `valves8`. -/
def t8 : Tools := { valves := valves8 }

/-- The tool list served in the discovery scenario: one allowed read
tool, one foreign-prefix tool, one read tool missing from the
allow-list, and one write tool. -/
def toolList8 : List JVal :=
  [JVal.obj [("name", JVal.str ("jira_search")), ("description", JVal.str ("Search")),
     ("inputSchema", JVal.obj [("type", JVal.str ("object"))])],
   JVal.obj [("name", JVal.str ("confluence_search"))],
   JVal.obj [("name", JVal.str ("jira_get_worklog"))],
   JVal.obj [("name", JVal.str ("jira_create_issue"))]]

/-- Environment for the discovery scenario: handshake succeeds with
session `s2`, `tools/list` serves `toolList8`. -/
def env8 : Env := fun r =>
  match reqMethod r with
  | some (JVal.str ("tools/list")) =>
    PostResult.resp 200 none
      (Except.ok (JVal.obj [("result", JVal.obj [("tools", JVal.arr toolList8)])])) ("")
  | _ =>
    PostResult.resp 200 (some ("s2"))
      (Except.ok (JVal.obj [("result", JVal.obj [])])) ("")

/-- Environment whose `initialize` response carries no `Mcp-Session-Id`
header. -/
def env10 : Env := fun r =>
  match reqMethod r with
  | some (JVal.str ("initialize")) =>
    PostResult.resp 200 none (Except.ok (JVal.obj [("result", JVal.obj [])])) ("")
  | _ => PostResult.resp 202 none (Except.ok JVal.null) ("")

/-! ## Basic lemmas about `M` -/

theorem M.pure_apply {α : Type} (a : α) (tr : List Request) :
    (pure a : M α) tr = (Except.ok a, tr) := rfl

theorem M.bind_apply {α β : Type} (m : M α) (k : α → M β) (tr : List Request) :
    (m >>= k) tr = (match m tr with
      | (Except.ok a, tr1) => k a tr1
      | (Except.error e, tr1) => (Except.error e, tr1)) := rfl

theorem M.bind_apply_ok {α β : Type} {m : M α} {a : α} {tr1 : List Request}
    (k : α → M β) (tr : List Request) (h : m tr = (Except.ok a, tr1)) :
    (m >>= k) tr = k a tr1 := by
  rw [M.bind_apply, h]

theorem M.bind_apply_error {α β : Type} {m : M α} {e : PyExc} {tr1 : List Request}
    (k : α → M β) (tr : List Request) (h : m tr = (Except.error e, tr1)) :
    (m >>= k) tr = (Except.error e, tr1) := by
  rw [M.bind_apply, h]

theorem M.post_resp {env : Env} {r : Request} {st : Nat} {sid : Option String}
    {b : Except String JVal} {txt : String} (h : env r = PostResult.resp st sid b txt)
    (tr : List Request) :
    M.post env r tr = (Except.ok ⟨st, sid, b, txt⟩, tr ++ [r]) := by
  unfold M.post; rw [h]

theorem M.post_timeout {env : Env} {r : Request} {m : String}
    (h : env r = PostResult.timeout m) (tr : List Request) :
    M.post env r tr = (Except.error (PyExc.timeout m), tr ++ [r]) := by
  unfold M.post; rw [h]

theorem M.post_raise {env : Env} {r : Request} {m : String}
    (h : env r = PostResult.raise m) (tr : List Request) :
    M.post env r tr = (Except.error (PyExc.exc m), tr ++ [r]) := by
  unfold M.post; rw [h]

/-! ## Totality (no escaping exception) lemmas -/

theorem neverRaises_pure (s : String) : neverRaises (pure s) :=
  fun tr => ⟨s, tr, rfl⟩

theorem neverRaises_tryCatch (m : M String) (h : PyExc → M String)
    (hh : ∀ e, neverRaises (h e)) : neverRaises (M.tryCatch m h) := by
  intro tr
  rcases hm : m tr with ⟨r, tr1⟩
  cases r with
  | ok a => exact ⟨a, tr1, by unfold M.tryCatch; rw [hm]⟩
  | error e =>
    obtain ⟨s, tr2, h2⟩ := hh e tr1
    exact ⟨s, tr2, by unfold M.tryCatch; rw [hm]; exact h2⟩

theorem call_tool_handler_total (uv : UserValves) :
    ∀ e, neverRaises (call_tool_handler uv e) := by
  intro e
  cases e with
  | timeout m => exact neverRaises_pure _
  | exc m => exact neverRaises_pure _

theorem discovery_handler_total : ∀ e, neverRaises (discovery_handler e) :=
  fun _ => neverRaises_pure _

theorem callTool_neverRaises (t : Tools) (env : Env) (n : String) (a : JVal)
    (uv : UserValves) : neverRaises (t._call_tool env n a uv) := by
  unfold Tools._call_tool
  split
  · exact neverRaises_pure _
  · exact neverRaises_tryCatch _ _ (call_tool_handler_total uv)

theorem resolve_bind_apply {α : Type} (t : Tools) (user : UserCtx) (uv : UserValves)
    (h : t._get_user_valves user = Except.ok uv) (k : UserValves → M α) (tr : List Request) :
    (liftResolve (t._get_user_valves user) >>= k) tr = k uv tr := by
  rw [h]; rfl

/-- `_call_tool` with an empty PAT short-circuits: configuration-error
payload, no network call. -/
theorem callTool_noPat (t : Tools) (env : Env) (n : String) (a : JVal) (uv : UserValves)
    (hpat : uv.JIRA_PAT = "") (tr : List Request) :
    t._call_tool env n a uv tr = (Except.ok config_error_payload, tr) := by
  unfold Tools._call_tool
  rw [if_pos hpat]
  rfl

/-! ## Trace-append lemmas -/

theorem appendsOnly_pure {α : Type} (a : α) : appendsOnly (pure a : M α) :=
  fun tr => ⟨[], by simp [M.pure_apply]⟩

theorem appendsOnly_throw {α : Type} (e : PyExc) : appendsOnly (M.throw e : M α) :=
  fun tr => ⟨[], by simp [M.throw]⟩

theorem appendsOnly_post (env : Env) (r : Request) : appendsOnly (M.post env r) := by
  intro tr
  refine ⟨[r], ?_⟩
  unfold M.post
  cases env r <;> rfl

theorem appendsOnly_liftE {α : Type} (x : Except PyExc α) : appendsOnly (liftE x) := by
  cases x with
  | ok a => exact appendsOnly_pure a
  | error e => exact appendsOnly_throw e

theorem appendsOnly_liftJson (x : Except String JVal) : appendsOnly (liftJson x) := by
  cases x with
  | ok a => exact appendsOnly_pure a
  | error e => exact appendsOnly_throw (PyExc.exc e)

theorem appendsOnly_bind {α β : Type} {m : M α} {k : α → M β}
    (hm : appendsOnly m) (hk : ∀ a, appendsOnly (k a)) : appendsOnly (m >>= k) := by
  intro tr
  rcases h : m tr with ⟨r, tr1⟩
  have h2 := hm tr
  rw [h] at h2
  obtain ⟨l1, hl1⟩ := h2
  cases r with
  | ok a =>
    obtain ⟨l2, hl2⟩ := hk a tr1
    refine ⟨l1 ++ l2, ?_⟩
    rw [M.bind_apply, h]
    show (k a tr1).2 = tr ++ (l1 ++ l2)
    rw [hl2]
    show tr1 ++ l2 = tr ++ (l1 ++ l2)
    rw [show tr1 = tr ++ l1 from hl1, List.append_assoc]
  | error e =>
    refine ⟨l1, ?_⟩
    rw [M.bind_apply, h]
    exact hl1

theorem handshakeRest_appends (t : Tools) (env : Env) (uv : UserValves) (resp : Resp) :
    appendsOnly (t.handshakeRest env uv resp) := by
  unfold Tools.handshakeRest
  split
  · exact appendsOnly_throw _
  · apply appendsOnly_bind (appendsOnly_liftJson _)
    intro data
    apply appendsOnly_bind (appendsOnly_liftE _)
    intro o
    cases o with
    | some v => exact appendsOnly_throw _
    | none =>
      apply appendsOnly_bind (appendsOnly_post _ _)
      intro r2
      exact appendsOnly_pure _

theorem handshake_trace_head (t : Tools) (env : Env) (uv : UserValves) (tr : List Request) :
    ∃ l, ((t._handshake env uv) tr).2 = tr ++ t.initRequest uv :: l := by
  unfold Tools._handshake
  cases hp : env (t.initRequest uv) with
  | resp st sid b txt =>
    obtain ⟨l, hl⟩ := handshakeRest_appends t env uv ⟨st, sid, b, txt⟩
      (tr ++ [t.initRequest uv])
    refine ⟨l, ?_⟩
    rw [M.bind_apply, M.post_resp hp tr]
    show (t.handshakeRest env uv ⟨st, sid, b, txt⟩ (tr ++ [t.initRequest uv])).2
      = tr ++ t.initRequest uv :: l
    rw [hl, List.append_assoc]
    rfl
  | timeout m =>
    refine ⟨[], ?_⟩
    rw [M.bind_apply, M.post_timeout hp tr]
  | raise m =>
    refine ⟨[], ?_⟩
    rw [M.bind_apply, M.post_raise hp tr]

/-! ## Claim theorems -/

/-- Claim C2: for every write-classified tool name, when the read-only
flag is set, invocation returns the human-readable denial message naming
the attempted action and performs no network call (the trace is
unchanged) — identically through the generic pass-through
`call_mcp_tool` and through every dedicated write operation. -/
theorem claim_C2 (t : Tools) (env : Env) (user : UserCtx) (tr : List Request)
    (hro : t.valves.READ_ONLY_MODE = true) :
    (∀ n a, _is_write_tool n = true →
      t.call_mcp_tool env n a user tr
        = (Except.ok (_read_only_message ("execute '" ++ n ++ "'")), tr)) ∧
    (∀ a b c d e f g, t.jira_create_issue env a b c d e f g user tr
        = (Except.ok (_read_only_message ("create a new Jira issue")), tr)) ∧
    (∀ a b c d e f, t.jira_update_issue env a b c d e f user tr
        = (Except.ok (_read_only_message ("update issue " ++ a)), tr)) ∧
    (∀ a b c, t.jira_transition_issue env a b c user tr
        = (Except.ok (_read_only_message ("transition issue " ++ a)), tr)) ∧
    (∀ a b, t.jira_add_comment env a b user tr
        = (Except.ok (_read_only_message ("add a comment to issue " ++ a)), tr)) ∧
    (∀ a b c d, t.jira_add_worklog env a b c d user tr
        = (Except.ok (_read_only_message ("add a worklog to issue " ++ a)), tr)) ∧
    (∀ a b, t.jira_link_to_epic env a b user tr
        = (Except.ok (_read_only_message ("link issue " ++ a ++ " to epic " ++ b)), tr)) ∧
    (∀ a b c d, t.jira_create_issue_link env a b c d user tr
        = (Except.ok (_read_only_message ("create a link between " ++ b ++ " and " ++ c)), tr)) ∧
    (∀ a, t.jira_delete_issue env a user tr
        = (Except.ok (_read_only_message ("delete issue " ++ a)), tr)) := by
  refine ⟨?_, ?_, ?_, ?_, ?_, ?_, ?_, ?_, ?_⟩
  · intro n a hw
    simp [Tools.call_mcp_tool, hro, hw, M.pure_apply]
  · intro a b c d e f g
    simp [Tools.jira_create_issue, hro, M.pure_apply]
  · intro a b c d e f
    simp [Tools.jira_update_issue, hro, M.pure_apply]
  · intro a b c
    simp [Tools.jira_transition_issue, hro, M.pure_apply]
  · intro a b
    simp [Tools.jira_add_comment, hro, M.pure_apply]
  · intro a b c d
    simp [Tools.jira_add_worklog, hro, M.pure_apply]
  · intro a b
    simp [Tools.jira_link_to_epic, hro, M.pure_apply]
  · intro a b c d
    simp [Tools.jira_create_issue_link, hro, M.pure_apply]
  · intro a
    simp [Tools.jira_delete_issue, hro, M.pure_apply]

/-- Claim C2 witness: a fresh `Tools()` (read-only by default) denies
`jira_create_issue` through the pass-through and `jira_delete_issue`
through its dedicated operation, with an empty network trace. -/
theorem claim_C2_witness :
    Tools.new.call_mcp_tool env0 ("jira_create_issue") ("not json") none []
      = (Except.ok (_read_only_message ("execute 'jira_create_issue'")), []) ∧
    Tools.new.jira_delete_issue env0 ("PROJ-1") none []
      = (Except.ok (_read_only_message ("delete issue PROJ-1")), []) := by
  have h := claim_C2 Tools.new env0 none [] rfl
  exact ⟨h.1 ("jira_create_issue") ("not json") rfl, h.2.2.2.2.2.2.2.2 ("PROJ-1")⟩

/-- Claim C9: in `call_mcp_tool` the read-only gate runs before
credential resolution and before argument parsing — for a
write-classified name under read-only mode, the denial is returned with
an unchanged trace for every caller context (even one whose valves
mapping would fail validation) and every argument string (even malformed
JSON). -/
theorem claim_C9 (t : Tools) (env : Env) (user : UserCtx) (n a : String) (tr : List Request)
    (hro : t.valves.READ_ONLY_MODE = true) (hw : _is_write_tool n = true) :
    t.call_mcp_tool env n a user tr
      = (Except.ok (_read_only_message ("execute '" ++ n ++ "'")), tr) := by
  simp [Tools.call_mcp_tool, hro, hw, M.pure_apply]

/-- Claim C9 witness: the denial fires even with a caller context whose
valves mapping fails validation and a malformed JSON argument string. -/
theorem claim_C9_witness :
    Tools.new.call_mcp_tool env0 ("jira_delete_issue") ("not json") badValvesCtx []
      = (Except.ok (_read_only_message ("execute 'jira_delete_issue'")), []) :=
  claim_C9 Tools.new env0 badValvesCtx ("jira_delete_issue") ("not json") [] rfl rfl

/-- Claim C4: the timeout of the handshake's `initialize` POST is
`max(30, REQUEST_TIMEOUT / 4)` — in particular 120 gives 30, 20 gives 30
(the floor applies), 400 gives 100 — and the first request any
handshake puts on the wire is exactly that `initialize` request. -/
theorem claim_C4 :
    (∀ uv : UserValves, handshake_timeout uv = max 30 (uv.REQUEST_TIMEOUT / 4)) ∧
    handshake_timeout ⟨"", "", 120⟩ = 30 ∧
    handshake_timeout ⟨"", "", 20⟩ = 30 ∧
    handshake_timeout ⟨"", "", 400⟩ = 100 ∧
    (∀ (t : Tools) (uv : UserValves), (t.initRequest uv).timeout = handshake_timeout uv) ∧
    (∀ (t : Tools) (env : Env) (uv : UserValves) (tr : List Request),
      ∃ l, ((t._handshake env uv) tr).2 = tr ++ t.initRequest uv :: l) := by
  refine ⟨?_, by decide, by decide, by decide, fun t uv => rfl, handshake_trace_head⟩
  intro uv
  unfold handshake_timeout
  rw [Int.fdiv_eq_ediv _ (by norm_num)]

/-- Claim C7 (amended): when the read-only gate does not fire and the
caller context resolves, a malformed JSON argument string makes
`call_mcp_tool` return the `ArgumentError` payload referencing the
parse failure, with no handshake and no network call. -/
theorem claim_C7_amended (t : Tools) (env : Env) (user : UserCtx) (uv : UserValves)
    (n a m : String) (tr : List Request)
    (hgate : (t.valves.READ_ONLY_MODE && _is_write_tool n) = false)
    (hres : t._get_user_valves user = Except.ok uv)
    (hparse : loads a = Except.error m) :
    t.call_mcp_tool env n a user tr
      = (Except.ok (dumps (JVal.obj [("error",
          JVal.str ("Invalid JSON arguments: " ++ m))])), tr) := by
  unfold Tools.call_mcp_tool
  simp only [hgate, Bool.false_eq_true, if_false]
  rw [resolve_bind_apply t user uv hres]
  rw [hparse]
  rfl

/-- Claim C7 counterexample: with a write-classified name under the
default read-only mode, a malformed argument string yields the
read-only denial, not the `ArgumentError` payload — so the claim's
unqualified "for every string argument payload" fails. -/
theorem claim_C7_counterexample :
    Tools.new.call_mcp_tool env0 ("jira_delete_issue") ("not json") none []
      = (Except.ok (_read_only_message ("execute 'jira_delete_issue'")), []) ∧
    (loads ("not json")).isOk = false ∧
    _read_only_message ("execute 'jira_delete_issue'")
      ≠ dumps (JVal.obj [("error",
          JVal.str ("Invalid JSON arguments: Expecting value"))]) := by
  refine ⟨rfl, rfl, by decide⟩

/-- Claim C7 witness: a non-write tool name with malformed JSON gets the
`ArgumentError` payload and an empty trace. -/
theorem claim_C7_witness :
    Tools.new.call_mcp_tool env0 ("jira_search") ("not json") none []
      = (Except.ok (dumps (JVal.obj [("error",
          JVal.str ("Invalid JSON arguments: Expecting value"))])), []) :=
  claim_C7_amended Tools.new env0 none Tools.new.user_valves ("jira_search")
    ("not json") ("Expecting value") [] rfl rfl rfl

/-- Claim C10: when the `initialize` response lacks the `Mcp-Session-Id`
header, the handshake still succeeds and returns `none`, and every
request built with a `none` session id simply omits the session header. -/
theorem claim_C10 (t : Tools) (env : Env) (uv : UserValves) (data : JVal) (txt : String)
    (st2 : Nat) (sid2 : Option String) (b2 : Except String JVal) (t2 : String)
    (tr : List Request)
    (hinit : env (t.initRequest uv) = PostResult.resp 200 none (Except.ok data) txt)
    (hnoerr : errorCheck data = Except.ok none)
    (hnotify : env (t.notifyRequest uv none) = PostResult.resp st2 sid2 b2 t2) :
    (t._handshake env uv) tr
      = (Except.ok none, tr ++ [t.initRequest uv, t.notifyRequest uv none]) ∧
    (∀ v : UserValves, (t._get_headers v none).all
        (fun p => p.1 != ("Mcp-Session-Id")) = true) ∧
    (∀ n a, (t.callRequest uv none n a).headers = t._get_headers uv none) := by
  refine ⟨?_, ?_, fun n a => rfl⟩
  · unfold Tools._handshake
    rw [M.bind_apply_ok _ tr (M.post_resp hinit tr)]
    unfold Tools.handshakeRest
    split
    · next h => exact absurd rfl h
    · rw [M.bind_apply_ok _ _ (show liftJson (Resp.body ⟨200, none, Except.ok data, txt⟩)
        (tr ++ [t.initRequest uv]) = (Except.ok data, tr ++ [t.initRequest uv]) from rfl)]
      rw [M.bind_apply_ok _ _ (show liftE (errorCheck data) (tr ++ [t.initRequest uv])
        = (Except.ok (none : Option JVal), tr ++ [t.initRequest uv]) from by
          rw [hnoerr]; rfl)]
      show (M.post env (t.notifyRequest uv none) >>=
          fun _ => pure (Resp.sessionId ⟨200, none, Except.ok data, txt⟩))
            (tr ++ [t.initRequest uv])
        = (Except.ok none, tr ++ [t.initRequest uv, t.notifyRequest uv none])
      rw [M.bind_apply_ok _ _ (M.post_resp hnotify (tr ++ [t.initRequest uv]))]
      simp [M.pure_apply, List.append_assoc]
  · intro v
    unfold Tools._get_headers
    rcases eq_or_ne v.LITELLM_API_KEY "" with h1 | h1 <;>
      rcases eq_or_ne v.JIRA_PAT "" with h2 | h2 <;>
        simp [h1, h2]

/-- Claim C10 witness: a concrete handshake whose `initialize` response
has no session header returns `none` and posts both requests. -/
theorem claim_C10_witness :
    (Tools.new._handshake env10 uvPat) []
      = (Except.ok none, [Tools.new.initRequest uvPat, Tools.new.notifyRequest uvPat none]) := by
  have h := claim_C10 Tools.new env10 uvPat (JVal.obj [("result", JVal.obj [])]) ("")
    202 none (Except.ok JVal.null) ("") [] rfl rfl rfl
  exact h.1

/-- Claim C6 (amended): the notification's response is never inspected —
whatever response (any status, any header, any body) the `initialized`
POST returns, the handshake succeeds with the session id from
`initialize`; but when that POST itself raises (timeout or connection
error), the exception propagates out of `_handshake` instead of being
swallowed, so the operation does not proceed to the tool call. -/
theorem claim_C6_amended (t : Tools) (env : Env) (uv : UserValves) (sid : Option String)
    (data : JVal) (txt : String) (tr : List Request)
    (hinit : env (t.initRequest uv) = PostResult.resp 200 sid (Except.ok data) txt)
    (hnoerr : errorCheck data = Except.ok none) :
    (∀ st2 sid2 b2 t2, env (t.notifyRequest uv sid) = PostResult.resp st2 sid2 b2 t2 →
      (t._handshake env uv) tr
        = (Except.ok sid, tr ++ [t.initRequest uv, t.notifyRequest uv sid])) ∧
    (∀ m, env (t.notifyRequest uv sid) = PostResult.timeout m →
      (t._handshake env uv) tr
        = (Except.error (PyExc.timeout m), tr ++ [t.initRequest uv, t.notifyRequest uv sid])) ∧
    (∀ m, env (t.notifyRequest uv sid) = PostResult.raise m →
      (t._handshake env uv) tr
        = (Except.error (PyExc.exc m), tr ++ [t.initRequest uv, t.notifyRequest uv sid])) := by
  have step : (t._handshake env uv) tr
      = (M.post env (t.notifyRequest uv sid) >>= fun _ => pure sid)
          (tr ++ [t.initRequest uv]) := by
    unfold Tools._handshake
    rw [M.bind_apply_ok _ tr (M.post_resp hinit tr)]
    unfold Tools.handshakeRest
    split
    · next h => exact absurd rfl h
    · rw [M.bind_apply_ok _ _ (show liftJson (Resp.body ⟨200, sid, Except.ok data, txt⟩)
        (tr ++ [t.initRequest uv]) = (Except.ok data, tr ++ [t.initRequest uv]) from rfl)]
      rw [M.bind_apply_ok _ _ (show liftE (errorCheck data) (tr ++ [t.initRequest uv])
        = (Except.ok (none : Option JVal), tr ++ [t.initRequest uv]) from by
          rw [hnoerr]; rfl)]
  refine ⟨?_, ?_, ?_⟩
  · intro st2 sid2 b2 t2 hn
    rw [step, M.bind_apply_ok _ _ (M.post_resp hn _)]
    simp [M.pure_apply, List.append_assoc]
  · intro m hn
    rw [step, M.bind_apply_error _ _ (M.post_timeout hn _)]
    simp [List.append_assoc]
  · intro m hn
    rw [step, M.bind_apply_error _ _ (M.post_raise hn _)]
    simp [List.append_assoc]

/-- Claim C6 counterexample: when the notification POST times out, the
handshake raises instead of returning the session id, and the operation
returns the timeout payload after only two POSTs — the tool call never
happens, contradicting "a failure of this notification step is never
propagated [...] the overall operation proceeds". -/
theorem claim_C6_counterexample :
    ((Tools.new._handshake env6 uvPat) []).1
      = Except.error (PyExc.timeout ("timed out")) ∧
    (Tools.new._call_tool env6 ("jira_search") (JVal.obj []) uvPat) []
      = (Except.ok (timeout_error_payload uvPat),
         [Tools.new.initRequest uvPat, Tools.new.notifyRequest uvPat (some ("sess-1"))]) :=
  ⟨rfl, rfl⟩

/-- Claim C6 witness: an HTTP 500 failure response to the notification
is ignored — the handshake still returns the session id. -/
theorem claim_C6_witness :
    (Tools.new._handshake env6b uvPat) []
      = (Except.ok (some ("sess-1")),
         [Tools.new.initRequest uvPat, Tools.new.notifyRequest uvPat (some ("sess-1"))]) := by
  have h := claim_C6_amended Tools.new env6b uvPat (some ("sess-1"))
    (JVal.obj [("result", JVal.obj [])]) ("") [] rfl rfl
  exact h.1 500 none (Except.error ("not json")) ("server error") rfl

/-- Claim C3 counterexample: with the default read-only mode and an
unconfigured PAT, `jira_create_issue` returns the read-only denial, not
the `ConfigurationError` payload — the read-only gate preempts the
missing-token check, so the claim's "for every operation" fails. -/
theorem claim_C3_counterexample :
    Tools.new.user_valves.JIRA_PAT = "" ∧
    Tools.new.valves.READ_ONLY_MODE = true ∧
    Tools.new.jira_create_issue env0 ("PROJ") ("Fix") ("Task") ("") ("") ("") ("") none []
      = (Except.ok (_read_only_message ("create a new Jira issue")), []) ∧
    _read_only_message ("create a new Jira issue") ≠ config_error_payload := by
  refine ⟨rfl, rfl, rfl, by decide⟩

/-- Claim C3 (amended): whenever the resolved credentials carry an empty
PAT, every operation performs no network call (the trace is unchanged),
and returns the `ConfigurationError` payload — except where a local
pre-check fires first: a write operation (or a write-named pass-through
call) under read-only mode returns the denial message, and the
pass-through with malformed JSON arguments returns the `ArgumentError`
payload. -/
theorem claim_C3_amended (t : Tools) (env : Env) (user : UserCtx) (uv : UserValves)
    (tr : List Request)
    (hres : t._get_user_valves user = Except.ok uv) (hpat : uv.JIRA_PAT = "") :
    t.discover_jira_tools env user tr = (Except.ok config_error_payload, tr) ∧
    (∀ a b c, t.jira_search env a b c user tr = (Except.ok config_error_payload, tr)) ∧
    (∀ a b, t.jira_get_issue env a b user tr = (Except.ok config_error_payload, tr)) ∧
    t.jira_get_all_projects env user tr = (Except.ok config_error_payload, tr) ∧
    (∀ a b, t.jira_get_project_issues env a b user tr = (Except.ok config_error_payload, tr)) ∧
    (∀ a, t.jira_get_transitions env a user tr = (Except.ok config_error_payload, tr)) ∧
    (∀ a, t.jira_get_agile_boards env a user tr = (Except.ok config_error_payload, tr)) ∧
    (∀ a b, t.jira_get_sprints_from_board env a b user tr
      = (Except.ok config_error_payload, tr)) ∧
    (∀ a, t.jira_get_sprint_issues env a user tr = (Except.ok config_error_payload, tr)) ∧
    (∀ a, t.jira_get_worklog env a user tr = (Except.ok config_error_payload, tr)) ∧
    (∀ a, t.jira_get_user_profile env a user tr = (Except.ok config_error_payload, tr)) ∧
    (∀ a b, t.jira_search_fields env a b user tr = (Except.ok config_error_payload, tr)) ∧
    (∀ a, t.jira_get_project_versions env a user tr = (Except.ok config_error_payload, tr)) ∧
    (∀ a b c, t.jira_get_board_issues env a b c user tr
      = (Except.ok config_error_payload, tr)) ∧
    t.jira_get_link_types env user tr = (Except.ok config_error_payload, tr) ∧
    (∀ a b c d e f g, t.jira_create_issue env a b c d e f g user tr
      = (Except.ok (if t.valves.READ_ONLY_MODE then
          _read_only_message ("create a new Jira issue") else config_error_payload), tr)) ∧
    (∀ a b c d e f, t.jira_update_issue env a b c d e f user tr
      = (Except.ok (if t.valves.READ_ONLY_MODE then
          _read_only_message ("update issue " ++ a) else config_error_payload), tr)) ∧
    (∀ a b c, t.jira_transition_issue env a b c user tr
      = (Except.ok (if t.valves.READ_ONLY_MODE then
          _read_only_message ("transition issue " ++ a) else config_error_payload), tr)) ∧
    (∀ a b, t.jira_add_comment env a b user tr
      = (Except.ok (if t.valves.READ_ONLY_MODE then
          _read_only_message ("add a comment to issue " ++ a) else config_error_payload), tr)) ∧
    (∀ a b c d, t.jira_add_worklog env a b c d user tr
      = (Except.ok (if t.valves.READ_ONLY_MODE then
          _read_only_message ("add a worklog to issue " ++ a) else config_error_payload), tr)) ∧
    (∀ a b, t.jira_link_to_epic env a b user tr
      = (Except.ok (if t.valves.READ_ONLY_MODE then
          _read_only_message ("link issue " ++ a ++ " to epic " ++ b)
          else config_error_payload), tr)) ∧
    (∀ a b c d, t.jira_create_issue_link env a b c d user tr
      = (Except.ok (if t.valves.READ_ONLY_MODE then
          _read_only_message ("create a link between " ++ b ++ " and " ++ c)
          else config_error_payload), tr)) ∧
    (∀ a, t.jira_delete_issue env a user tr
      = (Except.ok (if t.valves.READ_ONLY_MODE then
          _read_only_message ("delete issue " ++ a) else config_error_payload), tr)) ∧
    (∀ a b, t.call_mcp_tool env a b user tr
      = (Except.ok (if t.valves.READ_ONLY_MODE && _is_write_tool a then
          _read_only_message ("execute '" ++ a ++ "'")
        else match loads b with
          | Except.error m => dumps (JVal.obj [("error",
              JVal.str ("Invalid JSON arguments: " ++ m))])
          | Except.ok _ => config_error_payload), tr)) := by
  refine ⟨?_, ?_, ?_, ?_, ?_, ?_, ?_, ?_, ?_, ?_, ?_, ?_, ?_, ?_, ?_, ?_, ?_, ?_, ?_, ?_,
    ?_, ?_, ?_, ?_⟩
  · unfold Tools.discover_jira_tools
    rw [resolve_bind_apply t user uv hres]
    simp [hpat, M.pure_apply]
  · intro a b c
    unfold Tools.jira_search
    rw [resolve_bind_apply t user uv hres]
    exact callTool_noPat t env _ _ uv hpat tr
  · intro a b
    unfold Tools.jira_get_issue
    rw [resolve_bind_apply t user uv hres]
    exact callTool_noPat t env _ _ uv hpat tr
  · unfold Tools.jira_get_all_projects
    rw [resolve_bind_apply t user uv hres]
    exact callTool_noPat t env _ _ uv hpat tr
  · intro a b
    unfold Tools.jira_get_project_issues
    rw [resolve_bind_apply t user uv hres]
    exact callTool_noPat t env _ _ uv hpat tr
  · intro a
    unfold Tools.jira_get_transitions
    rw [resolve_bind_apply t user uv hres]
    exact callTool_noPat t env _ _ uv hpat tr
  · intro a
    unfold Tools.jira_get_agile_boards
    rw [resolve_bind_apply t user uv hres]
    exact callTool_noPat t env _ _ uv hpat tr
  · intro a b
    unfold Tools.jira_get_sprints_from_board
    rw [resolve_bind_apply t user uv hres]
    exact callTool_noPat t env _ _ uv hpat tr
  · intro a
    unfold Tools.jira_get_sprint_issues
    rw [resolve_bind_apply t user uv hres]
    exact callTool_noPat t env _ _ uv hpat tr
  · intro a
    unfold Tools.jira_get_worklog
    rw [resolve_bind_apply t user uv hres]
    exact callTool_noPat t env _ _ uv hpat tr
  · intro a
    unfold Tools.jira_get_user_profile
    rw [resolve_bind_apply t user uv hres]
    exact callTool_noPat t env _ _ uv hpat tr
  · intro a b
    unfold Tools.jira_search_fields
    rw [resolve_bind_apply t user uv hres]
    exact callTool_noPat t env _ _ uv hpat tr
  · intro a
    unfold Tools.jira_get_project_versions
    rw [resolve_bind_apply t user uv hres]
    exact callTool_noPat t env _ _ uv hpat tr
  · intro a b c
    unfold Tools.jira_get_board_issues
    rw [resolve_bind_apply t user uv hres]
    exact callTool_noPat t env _ _ uv hpat tr
  · unfold Tools.jira_get_link_types
    rw [resolve_bind_apply t user uv hres]
    exact callTool_noPat t env _ _ uv hpat tr
  · intro a b c d e f g
    cases hro : t.valves.READ_ONLY_MODE with
    | true => simp [Tools.jira_create_issue, hro, M.pure_apply]
    | false =>
      simp only [Tools.jira_create_issue, hro, Bool.false_eq_true, if_false]
      rw [resolve_bind_apply t user uv hres]
      exact callTool_noPat t env _ _ uv hpat tr
  · intro a b c d e f
    cases hro : t.valves.READ_ONLY_MODE with
    | true => simp [Tools.jira_update_issue, hro, M.pure_apply]
    | false =>
      simp only [Tools.jira_update_issue, hro, Bool.false_eq_true, if_false]
      rw [resolve_bind_apply t user uv hres]
      exact callTool_noPat t env _ _ uv hpat tr
  · intro a b c
    cases hro : t.valves.READ_ONLY_MODE with
    | true => simp [Tools.jira_transition_issue, hro, M.pure_apply]
    | false =>
      simp only [Tools.jira_transition_issue, hro, Bool.false_eq_true, if_false]
      rw [resolve_bind_apply t user uv hres]
      exact callTool_noPat t env _ _ uv hpat tr
  · intro a b
    cases hro : t.valves.READ_ONLY_MODE with
    | true => simp [Tools.jira_add_comment, hro, M.pure_apply]
    | false =>
      simp only [Tools.jira_add_comment, hro, Bool.false_eq_true, if_false]
      rw [resolve_bind_apply t user uv hres]
      exact callTool_noPat t env _ _ uv hpat tr
  · intro a b c d
    cases hro : t.valves.READ_ONLY_MODE with
    | true => simp [Tools.jira_add_worklog, hro, M.pure_apply]
    | false =>
      simp only [Tools.jira_add_worklog, hro, Bool.false_eq_true, if_false]
      rw [resolve_bind_apply t user uv hres]
      exact callTool_noPat t env _ _ uv hpat tr
  · intro a b
    cases hro : t.valves.READ_ONLY_MODE with
    | true => simp [Tools.jira_link_to_epic, hro, M.pure_apply]
    | false =>
      simp only [Tools.jira_link_to_epic, hro, Bool.false_eq_true, if_false]
      rw [resolve_bind_apply t user uv hres]
      exact callTool_noPat t env _ _ uv hpat tr
  · intro a b c d
    cases hro : t.valves.READ_ONLY_MODE with
    | true => simp [Tools.jira_create_issue_link, hro, M.pure_apply]
    | false =>
      simp only [Tools.jira_create_issue_link, hro, Bool.false_eq_true, if_false]
      rw [resolve_bind_apply t user uv hres]
      exact callTool_noPat t env _ _ uv hpat tr
  · intro a
    cases hro : t.valves.READ_ONLY_MODE with
    | true => simp [Tools.jira_delete_issue, hro, M.pure_apply]
    | false =>
      simp only [Tools.jira_delete_issue, hro, Bool.false_eq_true, if_false]
      rw [resolve_bind_apply t user uv hres]
      exact callTool_noPat t env _ _ uv hpat tr
  · intro a b
    cases hg : t.valves.READ_ONLY_MODE && _is_write_tool a with
    | true => simp [Tools.call_mcp_tool, hg, M.pure_apply]
    | false =>
      simp only [Tools.call_mcp_tool, hg, Bool.false_eq_true, if_false]
      rw [resolve_bind_apply t user uv hres]
      cases hl : loads b with
      | error m => rfl
      | ok v => exact callTool_noPat t env a v uv hpat tr

/-- Claim C3 witness: discovery with default (PAT-less) credentials
returns the `ConfigurationError` payload with an empty trace. -/
theorem claim_C3_witness :
    Tools.new.discover_jira_tools env0 none []
      = (Except.ok config_error_payload, []) :=
  (claim_C3_amended Tools.new env0 none Tools.new.user_valves [] rfl rfl).1

/-- Claim C1 counterexample: a caller context whose valves mapping
carries a non-numeric `REQUEST_TIMEOUT` makes the resolver raise a
validation error, and the operation (here: discovery) propagates it to
the host instead of returning a structured string — resolution happens
outside the `try` block. -/
theorem claim_C1_counterexample :
    (Tools.new._get_user_valves badValvesCtx).isOk = false ∧
    raisesToHost (Tools.new.discover_jira_tools env0 badValvesCtx []) = true ∧
    raisesToHost (Tools.new.jira_search env0 ("q") 20 ("") badValvesCtx []) = true :=
  ⟨rfl, rfl, rfl⟩

/-- Claim C1 (amended): the resolver returns a credentials record
without raising for every context shape except a loosely-typed mapping
(whose pydantic validation may raise); and whenever resolution
succeeds, every public operation returns a string result for every
environment — all errors are converted, none thrown. -/
theorem claim_C1 (t : Tools) (env : Env) (user : UserCtx) :
    (isValvesMapping user = false → ∃ uv, t._get_user_valves user = Except.ok uv) ∧
    (∀ uv, t._get_user_valves user = Except.ok uv →
      neverRaises (t.discover_jira_tools env user) ∧
      (∀ a b c, neverRaises (t.jira_search env a b c user)) ∧
      (∀ a b, neverRaises (t.jira_get_issue env a b user)) ∧
      neverRaises (t.jira_get_all_projects env user) ∧
      (∀ a b, neverRaises (t.jira_get_project_issues env a b user)) ∧
      (∀ a, neverRaises (t.jira_get_transitions env a user)) ∧
      (∀ a, neverRaises (t.jira_get_agile_boards env a user)) ∧
      (∀ a b, neverRaises (t.jira_get_sprints_from_board env a b user)) ∧
      (∀ a, neverRaises (t.jira_get_sprint_issues env a user)) ∧
      (∀ a, neverRaises (t.jira_get_worklog env a user)) ∧
      (∀ a, neverRaises (t.jira_get_user_profile env a user)) ∧
      (∀ a b, neverRaises (t.jira_search_fields env a b user)) ∧
      (∀ a, neverRaises (t.jira_get_project_versions env a user)) ∧
      (∀ a b c, neverRaises (t.jira_get_board_issues env a b c user)) ∧
      neverRaises (t.jira_get_link_types env user) ∧
      (∀ a b c d e f g, neverRaises (t.jira_create_issue env a b c d e f g user)) ∧
      (∀ a b c d e f, neverRaises (t.jira_update_issue env a b c d e f user)) ∧
      (∀ a b c, neverRaises (t.jira_transition_issue env a b c user)) ∧
      (∀ a b, neverRaises (t.jira_add_comment env a b user)) ∧
      (∀ a b c d, neverRaises (t.jira_add_worklog env a b c d user)) ∧
      (∀ a b, neverRaises (t.jira_link_to_epic env a b user)) ∧
      (∀ a b c d, neverRaises (t.jira_create_issue_link env a b c d user)) ∧
      (∀ a, neverRaises (t.jira_delete_issue env a user)) ∧
      (∀ a b, neverRaises (t.call_mcp_tool env a b user))) := by
  constructor
  · intro hm
    cases user with
    | none => exact ⟨t.user_valves, rfl⟩
    | some o =>
      cases o with
      | none => exact ⟨t.user_valves, rfl⟩
      | some f =>
        cases f with
        | typed uv2 => exact ⟨uv2, rfl⟩
        | raw v =>
          cases v with
          | obj d => simp [isValvesMapping] at hm
          | null => exact ⟨t.user_valves, rfl⟩
          | bool x => exact ⟨t.user_valves, rfl⟩
          | num x => exact ⟨t.user_valves, rfl⟩
          | str x => exact ⟨t.user_valves, rfl⟩
          | arr x => exact ⟨t.user_valves, rfl⟩
  · intro uv hres
    have hop : ∀ (k : UserValves → M String), neverRaises (k uv) →
        neverRaises (liftResolve (t._get_user_valves user) >>= k) := by
      intro k hk tr
      rw [resolve_bind_apply t user uv hres]
      exact hk tr
    refine ⟨?_, ?_, ?_, ?_, ?_, ?_, ?_, ?_, ?_, ?_, ?_, ?_, ?_, ?_, ?_, ?_, ?_, ?_, ?_,
      ?_, ?_, ?_, ?_, ?_⟩
    · unfold Tools.discover_jira_tools
      apply hop
      dsimp only
      split
      · exact neverRaises_pure _
      · exact neverRaises_tryCatch _ _ discovery_handler_total
    · intro a b c
      unfold Tools.jira_search
      apply hop
      exact callTool_neverRaises t env _ _ uv
    · intro a b
      unfold Tools.jira_get_issue
      apply hop
      exact callTool_neverRaises t env _ _ uv
    · unfold Tools.jira_get_all_projects
      apply hop
      exact callTool_neverRaises t env _ _ uv
    · intro a b
      unfold Tools.jira_get_project_issues
      apply hop
      exact callTool_neverRaises t env _ _ uv
    · intro a
      unfold Tools.jira_get_transitions
      apply hop
      exact callTool_neverRaises t env _ _ uv
    · intro a
      unfold Tools.jira_get_agile_boards
      apply hop
      exact callTool_neverRaises t env _ _ uv
    · intro a b
      unfold Tools.jira_get_sprints_from_board
      apply hop
      exact callTool_neverRaises t env _ _ uv
    · intro a
      unfold Tools.jira_get_sprint_issues
      apply hop
      exact callTool_neverRaises t env _ _ uv
    · intro a
      unfold Tools.jira_get_worklog
      apply hop
      exact callTool_neverRaises t env _ _ uv
    · intro a
      unfold Tools.jira_get_user_profile
      apply hop
      exact callTool_neverRaises t env _ _ uv
    · intro a b
      unfold Tools.jira_search_fields
      apply hop
      exact callTool_neverRaises t env _ _ uv
    · intro a
      unfold Tools.jira_get_project_versions
      apply hop
      exact callTool_neverRaises t env _ _ uv
    · intro a b c
      unfold Tools.jira_get_board_issues
      apply hop
      exact callTool_neverRaises t env _ _ uv
    · unfold Tools.jira_get_link_types
      apply hop
      exact callTool_neverRaises t env _ _ uv
    · intro a b c d e f g
      unfold Tools.jira_create_issue
      split
      · exact neverRaises_pure _
      · apply hop
        exact callTool_neverRaises t env _ _ uv
    · intro a b c d e f
      unfold Tools.jira_update_issue
      split
      · exact neverRaises_pure _
      · apply hop
        exact callTool_neverRaises t env _ _ uv
    · intro a b c
      unfold Tools.jira_transition_issue
      split
      · exact neverRaises_pure _
      · apply hop
        exact callTool_neverRaises t env _ _ uv
    · intro a b
      unfold Tools.jira_add_comment
      split
      · exact neverRaises_pure _
      · apply hop
        exact callTool_neverRaises t env _ _ uv
    · intro a b c d
      unfold Tools.jira_add_worklog
      split
      · exact neverRaises_pure _
      · apply hop
        exact callTool_neverRaises t env _ _ uv
    · intro a b
      unfold Tools.jira_link_to_epic
      split
      · exact neverRaises_pure _
      · apply hop
        exact callTool_neverRaises t env _ _ uv
    · intro a b c d
      unfold Tools.jira_create_issue_link
      split
      · exact neverRaises_pure _
      · apply hop
        exact callTool_neverRaises t env _ _ uv
    · intro a
      unfold Tools.jira_delete_issue
      split
      · exact neverRaises_pure _
      · apply hop
        exact callTool_neverRaises t env _ _ uv
    · intro a b
      unfold Tools.call_mcp_tool
      split
      · exact neverRaises_pure _
      · apply hop
        cases hl : loads b with
        | error m => exact neverRaises_pure _
        | ok v => exact callTool_neverRaises t env a v uv

/-- Claim C1 witness: with an absent caller context the resolver
succeeds, and discovery (under an environment whose every POST raises)
still returns a string result. -/
theorem claim_C1_witness :
    (∃ uv, Tools.new._get_user_valves none = Except.ok uv) ∧
    (∃ s tr2, Tools.new.discover_jira_tools env0 none [] = (Except.ok s, tr2)) := by
  have h := claim_C1 Tools.new env0 none
  exact ⟨h.1 rfl, (h.2 Tools.new.user_valves rfl).1 []⟩

/-! ## Normalization refinement lemmas (for claim C5) -/

theorem exc_ok_bind {ε α β : Type} (a : α) (k : α → Except ε β) :
    ((Except.ok a : Except ε α) >>= k) = k a := rfl

theorem collectItems_wf (items : List JVal) (hw : ∀ i ∈ items, wfItem i = true) :
    collectItems items = Except.ok ((items.filterMap specPiece).map JVal.str) := by
  induction items with
  | nil => rfl
  | cons item rest ih =>
    have hitem := hw item (List.mem_cons_self _ _)
    have hrest := ih (fun i hi => hw i (List.mem_cons_of_mem _ hi))
    cases item with
    | obj fs =>
      cases htext : ((lookupField fs ("type")).getD JVal.null == JVal.str ("text")) with
      | true =>
        simp only [wfItem, htext, if_true] at hitem
        cases hv : (lookupField fs ("text")).getD (JVal.str ("")) with
        | str s =>
          have hs : specPiece (JVal.obj fs) = some s := by
            simp only [specPiece, htext, if_true, hv]
          simp only [collectItems, htext, if_true, hrest, exc_ok_bind, hv,
            List.filterMap_cons, hs, List.map_cons]
        | null => rw [hv] at hitem; cases hitem
        | bool x => rw [hv] at hitem; cases hitem
        | num x => rw [hv] at hitem; cases hitem
        | arr x => rw [hv] at hitem; cases hitem
        | obj x => rw [hv] at hitem; cases hitem
      | false =>
        cases hres : ((lookupField fs ("type")).getD JVal.null == JVal.str ("resource")) with
        | true =>
          simp only [wfItem, htext, hres, Bool.false_eq_true, if_false, if_true] at hitem
          cases hv : (lookupField fs ("resource")).getD (JVal.obj []) with
          | obj rfs =>
            have hs : specPiece (JVal.obj fs) = some ("[Resource: "
                ++ pyStr ((lookupField rfs ("uri")).getD (JVal.str ("unknown"))) ++ "]") := by
              simp only [specPiece, htext, hres, Bool.false_eq_true, if_false, if_true, hv]
            simp only [collectItems, htext, hres, Bool.false_eq_true, if_false, if_true, hv,
              hrest, exc_ok_bind, List.filterMap_cons, hs, List.map_cons]
          | null => rw [hv] at hitem; cases hitem
          | bool x => rw [hv] at hitem; cases hitem
          | num x => rw [hv] at hitem; cases hitem
          | arr x => rw [hv] at hitem; cases hitem
          | str x => rw [hv] at hitem; cases hitem
        | false =>
          have hs : specPiece (JVal.obj fs) = none := by
            simp only [specPiece, htext, hres, Bool.false_eq_true, if_false]
          simp only [collectItems, htext, hres, Bool.false_eq_true, if_false, hrest,
            List.filterMap_cons, hs]
    | null => cases hitem
    | bool x => cases hitem
    | num x => cases hitem
    | str x => cases hitem
    | arr x => cases hitem

theorem allStrings_map_str (l : List String) :
    allStrings (l.map JVal.str) = Except.ok l := by
  induction l with
  | nil => rfl
  | cons x xs ih =>
    simp only [List.map_cons, allStrings, ih, exc_ok_bind]

theorem normalizeSuccess_spec (dFields rFields : List (String × JVal)) (items : List JVal)
    (h1 : lookupField dFields ("result") = some (JVal.obj rFields))
    (h2 : lookupField rFields ("content") = some (JVal.arr items))
    (hw : ∀ i ∈ items, wfItem i = true) :
    normalizeSuccess (JVal.obj dFields) = Except.ok (specNormalize (JVal.obj dFields) items) := by
  unfold normalizeSuccess specNormalize
  rw [show pyGet (JVal.obj dFields) ("result") (JVal.obj []) = Except.ok (JVal.obj rFields)
    from by
      show Except.ok ((lookupField dFields ("result")).getD (JVal.obj []))
        = Except.ok (JVal.obj rFields)
      rw [h1]
      rfl]
  simp only [exc_ok_bind]
  rw [show pyGet (JVal.obj rFields) ("content") (JVal.arr []) = Except.ok (JVal.arr items)
    from by
      show Except.ok ((lookupField rFields ("content")).getD (JVal.arr []))
        = Except.ok (JVal.arr items)
      rw [h2]
      rfl]
  simp only [exc_ok_bind]
  rw [show iterList (JVal.arr items) = Except.ok items from rfl]
  simp only [exc_ok_bind]
  rw [collectItems_wf items hw]
  simp only [exc_ok_bind]
  cases hp : items.filterMap specPiece with
  | nil => rfl
  | cons x xs =>
    have hisE : ((x :: xs).map JVal.str).isEmpty = false := rfl
    have hisE2 : (x :: xs).isEmpty = false := rfl
    have hall : allStrings ((x :: xs).map JVal.str) = Except.ok (x :: xs) :=
      allStrings_map_str (x :: xs)
    simp only [hisE, hisE2, Bool.false_eq_true, if_false, hall, exc_ok_bind]

/-- Claim C5: normalization of a successful `tools/call` body collects
the text of `type == "text"` items and a `[Resource: uri]` placeholder
for `type == "resource"` items, skips every other type, joins with
newlines, and falls back to the JSON encoding of the whole body when
nothing is recognizable (`specNormalize` transcribes the spec wording);
in particular two text items `A`, `B` normalize to `"A\nB"` and one
resource item with uri `x://y` normalizes to `"[Resource: x://y]"`,
end to end through `_call_tool`. -/
theorem claim_C5 :
    (∀ (dFields rFields : List (String × JVal)) (items : List JVal),
      lookupField dFields ("result") = some (JVal.obj rFields) →
      lookupField rFields ("content") = some (JVal.arr items) →
      (∀ i ∈ items, wfItem i = true) →
      normalizeSuccess (JVal.obj dFields)
        = Except.ok (specNormalize (JVal.obj dFields) items)) ∧
    ((Tools.new._call_tool env5 ("jira_search") (JVal.obj []) uvPat) []).1
      = Except.ok ("A\nB") ∧
    ((Tools.new._call_tool env5r ("jira_search") (JVal.obj []) uvPat) []).1
      = Except.ok ("[Resource: x://y]") :=
  ⟨normalizeSuccess_spec, rfl, rfl⟩

/-- Claim C5 witness: a body whose `content` is empty normalizes to the
JSON encoding of the whole body (the fallback branch). -/
theorem claim_C5_witness :
    normalizeSuccess (JVal.obj [("result", JVal.obj [("content", JVal.arr [])])])
      = Except.ok (dumps (JVal.obj [("result", JVal.obj [("content", JVal.arr [])])])) := by
  have h := claim_C5.1 [("result", JVal.obj [("content", JVal.arr [])])]
    [("content", JVal.arr [])] [] rfl rfl (by simp)
  exact h

/-! ## Discovery filter refinement (for claim C8) -/

theorem processToolList_spec (t : Tools) (tools : List JVal)
    (hw : ∀ x ∈ tools, wfTool x = true) :
    t.processToolList tools = Except.ok (tools.filterMap (specKeepTool t)) := by
  induction tools with
  | nil => rfl
  | cons tool rest ih =>
    have hitem := hw tool (List.mem_cons_self _ _)
    have hrest := ih (fun x hx => hw x (List.mem_cons_of_mem _ hx))
    cases tool with
    | obj fs =>
      cases hn : (lookupField fs ("name")).getD (JVal.str ("")) with
      | str name =>
        cases hb1 : pyStartsWith name ("jira_") with
        | false =>
          have hs : specKeepTool t (JVal.obj fs) = none := by
            simp only [specKeepTool, hn, hb1, Bool.false_and, Bool.false_eq_true, if_false]
          simp only [Tools.processToolList, hn, hb1, Bool.not_false, if_true, hrest,
            List.filterMap_cons, hs]
        | true =>
          cases hb2 : (!(enabled_list t.valves.ENABLED_TOOLS).isEmpty
              && !((enabled_list t.valves.ENABLED_TOOLS).contains name)) with
          | true =>
            rw [Bool.and_eq_true, Bool.not_eq_true', Bool.not_eq_true'] at hb2
            have hs : specKeepTool t (JVal.obj fs) = none := by
              simp only [specKeepTool, hn, hb1, hb2.1, hb2.2, Bool.true_and, Bool.or_self,
                Bool.false_and, Bool.false_eq_true, if_false]
            simp only [Tools.processToolList, hn, hb1, Bool.not_true, Bool.false_eq_true,
              if_false, Bool.and_eq_true, Bool.not_eq_true', hb2.1, hb2.2, and_self, if_true,
              hrest, List.filterMap_cons, hs]
          | false =>
            have h2 : ((enabled_list t.valves.ENABLED_TOOLS).isEmpty
                || (enabled_list t.valves.ENABLED_TOOLS).contains name) = true := by
              cases hE : (enabled_list t.valves.ENABLED_TOOLS).isEmpty with
              | true => simp
              | false =>
                rw [hE, Bool.not_false, Bool.true_and] at hb2
                simp at hb2
                simp [hb2]
            cases hb3 : (t.valves.READ_ONLY_MODE && _is_write_tool name) with
            | true =>
              rw [Bool.and_eq_true] at hb3
              have hs : specKeepTool t (JVal.obj fs) = none := by
                simp only [specKeepTool, hn, hb1, h2, hb3.1, hb3.2, Bool.true_and,
                  Bool.not_true, Bool.or_self, Bool.and_false, Bool.false_eq_true, if_false]
              simp only [Tools.processToolList, hn, hb1, Bool.not_true, Bool.false_eq_true,
                if_false, hb2, Bool.and_eq_true, hb3.1, hb3.2, and_self, if_true, hrest,
                List.filterMap_cons, hs]
            | false =>
              have h3 : (!t.valves.READ_ONLY_MODE || !_is_write_tool name) = true := by
                cases hRO : t.valves.READ_ONLY_MODE with
                | false => simp
                | true =>
                  rw [hRO, Bool.true_and] at hb3
                  simp [hb3]
              have hs : specKeepTool t (JVal.obj fs)
                  = some (JVal.obj [("name", JVal.str name),
                      ("description", (lookupField fs ("description")).getD (JVal.str (""))),
                      ("input_schema", (lookupField fs ("inputSchema")).getD (JVal.obj []))]) := by
                simp only [specKeepTool, hn, hb1, h2, h3, Bool.true_and, Bool.and_self,
                  if_true]
              simp only [Tools.processToolList, hn, hb1, Bool.not_true, Bool.false_eq_true,
                if_false, hb2, hb3, hrest, exc_ok_bind, List.filterMap_cons, hs]
      | null => simp [wfTool, hn] at hitem
      | bool x => simp [wfTool, hn] at hitem
      | num x => simp [wfTool, hn] at hitem
      | arr x => simp [wfTool, hn] at hitem
      | obj x => simp [wfTool, hn] at hitem
    | null => cases hitem
    | bool x => cases hitem
    | num x => cases hitem
    | str x => cases hitem
    | arr x => cases hitem

/-- Claim C8: discovery keeps exactly the listed tools whose name starts
with the `jira_` prefix, that are in the allow-list whenever it is
non-empty, and that are not write tools when read-only mode is set
(`specKeepTool` transcribes the spec wording), each reported with name,
description and input schema; end to end, a four-tool listing under a
read-only three-name allow-list renders exactly the one surviving tool
as indented JSON. -/
theorem claim_C8 :
    (∀ (t : Tools) (tools : List JVal), (∀ x ∈ tools, wfTool x = true) →
      t.processToolList tools = Except.ok (tools.filterMap (specKeepTool t))) ∧
    t8.discover_jira_tools env8 (some (some (ValvesField.typed uvPat))) []
      = (Except.ok (dumpsIndent (JVal.arr [JVal.obj [("name", JVal.str ("jira_search")),
          ("description", JVal.str ("Search")),
          ("input_schema", JVal.obj [("type", JVal.str ("object"))])]])),
         [t8.initRequest uvPat, t8.notifyRequest uvPat (some ("s2")),
          t8.listRequest uvPat (some ("s2"))]) :=
  ⟨processToolList_spec, rfl⟩

/-- Claim C8 witness: applying the filter theorem to the concrete
four-tool listing of the discovery scenario. -/
theorem claim_C8_witness :
    t8.processToolList toolList8 = Except.ok (toolList8.filterMap (specKeepTool t8)) :=
  claim_C8.1 t8 toolList8 (by
    intro x hx
    simp only [toolList8, List.mem_cons, List.not_mem_nil, or_false] at hx
    rcases hx with rfl | rfl | rfl | rfl <;> rfl)
